import Mathlib

/-!
A shallow embedding of the nes6502 CPU core (a MOS 6502 emulator for the NES).

Machine integers are embedded as `Nat` with explicit wrapping: an 8-bit
wrapping add is `(a + b) % 256`, a 16-bit one `(a + b) % 65536`.  Memory is a
total function `Nat → Nat`; the `u16 → u8` contract of the Rust `Mapper` trait
is enforced by normalizing addresses modulo 2^16 and bytes modulo 2^8 at the
read/write boundary.  Fallible code (panics on `unwrap`, stack over/underflow
panics from `checked_sub`/`checked_add`, `unreachable!`) is embedded with
`Option`: a `none` result models an abort.

The `Interrupts` collaborator of the source is a pair of boolean lines that the
core reads and clears; they are embedded as two `Bool` fields of the state.
-/

namespace Nes6502

/-! ### Processor status register

Modelled from the spec: the source file `processor_status.rs` is not present in
the repository snapshot (only its callers are).  The spec fixes the layout of
the 8-bit status word `P`: bit 0 carry, bit 1 zero, bit 2 interrupt-disable,
bit 3 decimal, bit 4 break, bit 5 unused, bit 6 overflow, bit 7 negative, with
named set/clear/get accessor pairs operating on the whole byte. -/

/-- Modelled from the spec: read one named bit of the status byte. -/
def get_flag (p i : Nat) : Bool := p.testBit i

/-- Modelled from the spec: set one named bit of the status byte. -/
def set_flag (p i : Nat) : Nat := p ||| (1 <<< i)

/-- Modelled from the spec: clear one named bit of the status byte. -/
def clear_flag (p i : Nat) : Nat := p &&& (255 ^^^ (1 <<< i))

def carry_flag (p : Nat) : Bool := get_flag p 0
def zero_flag (p : Nat) : Bool := get_flag p 1
def interrupt_disable_flag (p : Nat) : Bool := get_flag p 2
def decimal_flag (p : Nat) : Bool := get_flag p 3
def break_flag (p : Nat) : Bool := get_flag p 4
def overflow_flag (p : Nat) : Bool := get_flag p 6
def negative_flag (p : Nat) : Bool := get_flag p 7

def set_carry_flag (p : Nat) : Nat := set_flag p 0
def clear_carry_flag (p : Nat) : Nat := clear_flag p 0
def set_zero_flag (p : Nat) : Nat := set_flag p 1
def clear_zero_flag (p : Nat) : Nat := clear_flag p 1
def set_interrupt_disable_flag (p : Nat) : Nat := set_flag p 2
def clear_interrupt_disable_flag (p : Nat) : Nat := clear_flag p 2
def set_decimal_flag (p : Nat) : Nat := set_flag p 3
def clear_decimal_flag (p : Nat) : Nat := clear_flag p 3
def set_break_flag (p : Nat) : Nat := set_flag p 4
def clear_break_flag (p : Nat) : Nat := clear_flag p 4
def set_overflow_flag (p : Nat) : Nat := set_flag p 6
def clear_overflow_flag (p : Nat) : Nat := clear_flag p 6
def set_negative_flag (p : Nat) : Nat := set_flag p 7
def clear_negative_flag (p : Nat) : Nat := clear_flag p 7

/-- `b.toNat`, the `bool as u8` / `bool as u16` cast of the source. -/
def boolToNat (b : Bool) : Nat := if b then 1 else 0

/-! ### CPU state (`Cpu` in `lib.rs`)

The generic `Mapper` collaborator becomes the memory function `mem`; the
`Interrupts` collaborator becomes the two lines `irq` and `nmi`.  The unused
6-element `registers` array of the source is carried along as in the source
(it is never read). -/

structure Cpu where
  accumulator : Nat
  x : Nat
  y : Nat
  stack_pointer : Nat
  program_counter : Nat
  processor_status : Nat
  mem : Nat → Nat
  irq : Bool
  nmi : Bool
  initialized : Bool

/-- `Cpu::read`: delegate to the mapper; `u16 → u8` contract normalized. -/
def Cpu.read (cpu : Cpu) (address : Nat) : Nat := cpu.mem (address % 65536) % 256

/-- `Cpu::write`: delegate to the mapper. -/
def Cpu.write (cpu : Cpu) (address value : Nat) : Cpu :=
  { cpu with mem := fun a => if a = address % 65536 then value % 256 else cpu.mem a }

/-- `modify_zero_flag`: set Z iff the byte is 0. -/
def Cpu.modify_zero_flag (cpu : Cpu) (byte : Nat) : Cpu :=
  if byte = 0 then { cpu with processor_status := set_zero_flag cpu.processor_status }
  else { cpu with processor_status := clear_zero_flag cpu.processor_status }

/-- `modify_negative_flag`: set N iff bit 7 of the byte is set. -/
def Cpu.modify_negative_flag (cpu : Cpu) (byte : Nat) : Cpu :=
  if byte >>> 7 ≠ 0 then { cpu with processor_status := set_negative_flag cpu.processor_status }
  else { cpu with processor_status := clear_negative_flag cpu.processor_status }

/-- `push`: write at `0x0100 | S`, then `S.checked_sub(1)`; the
`None => panic!("Cpu stack overflow")` arm is the `none` result. -/
def Cpu.push (cpu : Cpu) (byte : Nat) : Option Cpu :=
  let cpu' := cpu.write (0x0100 ||| cpu.stack_pointer) byte
  if cpu.stack_pointer = 0 then none
  else some { cpu' with stack_pointer := cpu.stack_pointer - 1 }

/-- `pop`: `S.checked_add(1)` (fails at the u8 maximum 0xFF, the
`panic!("Cpu stack underflow")` arm), then read at `0x0100 | S`. -/
def Cpu.pop (cpu : Cpu) : Option (Cpu × Nat) :=
  if cpu.stack_pointer = 255 then none
  else
    let cpu' := { cpu with stack_pointer := cpu.stack_pointer + 1 }
    some (cpu', cpu'.read (0x0100 ||| cpu'.stack_pointer))

/-! ### Free helpers of `execution/mod.rs` -/

def unpack_bytes (packed : Nat) : Nat × Nat := (packed &&& 0xFF, (packed >>> 8) &&& 0xFF)

def pack_bytes (low_byte high_byte : Nat) : Nat := (high_byte <<< 8) ||| low_byte

/-- `pack_bytes_wrapped` unwraps both operand bytes (panic modelled as `none`). -/
def pack_bytes_wrapped : Option Nat → Option Nat → Option Nat
  | some l, some h => some (pack_bytes l h)
  | _, _ => none

/-- `twos_compliment_to_signed` (sic), `u8 → i8` as in the source. -/
def twos_compliment_to_signed (value : Nat) : Int :=
  if value >>> 7 ≠ 0 then
    let negative := ((value ^^^ 0xFF) + 1) % 256
    if negative = 128 then -128 else -(negative : Int)
  else (value : Int)

/-! ### Addressing-mode data path (`execution/mod.rs`) -/

def immediate_read (low_byte : Option Nat) : Option Nat := low_byte

def zeropage_read (cpu : Cpu) (low_byte : Option Nat) : Option Nat :=
  low_byte.map fun l => cpu.read l

def zeropage_write (cpu : Cpu) (low_byte : Option Nat) (value : Nat) : Option Cpu :=
  low_byte.map fun l => cpu.write l value

def zeropage_x_read (cpu : Cpu) (low_byte : Option Nat) : Option Nat :=
  low_byte.map fun l => cpu.read ((l + cpu.x) % 256)

def zeropage_x_write (cpu : Cpu) (low_byte : Option Nat) (value : Nat) : Option Cpu :=
  low_byte.map fun l => cpu.write ((l + cpu.x) % 256) value

def zeropage_y_read (cpu : Cpu) (low_byte : Option Nat) : Option Nat :=
  low_byte.map fun l => cpu.read ((l + cpu.y) % 256)

def zeropage_y_write (cpu : Cpu) (low_byte : Option Nat) (value : Nat) : Option Cpu :=
  low_byte.map fun l => cpu.write ((l + cpu.y) % 256) value

def absolute_read (cpu : Cpu) (low_byte high_byte : Option Nat) : Option Nat :=
  (pack_bytes_wrapped low_byte high_byte).map fun a => cpu.read a

def absolute_write (cpu : Cpu) (low_byte high_byte : Option Nat) (value : Nat) : Option Cpu :=
  (pack_bytes_wrapped low_byte high_byte).map fun a => cpu.write a value

/-- Returns the value and whether a page boundary was crossed
(`low_byte.checked_add(x).is_none()`, i.e. the 8-bit add overflowed). -/
def absolute_x_read (cpu : Cpu) (low_byte high_byte : Option Nat) : Option (Nat × Bool) := do
  let pre ← pack_bytes_wrapped low_byte high_byte
  let l ← low_byte
  let address := (pre + cpu.x) % 65536
  return (cpu.read address, 255 < l + cpu.x)

def absolute_x_write (cpu : Cpu) (low_byte high_byte : Option Nat) (value : Nat) :
    Option Cpu := do
  let pre ← pack_bytes_wrapped low_byte high_byte
  return cpu.write ((pre + cpu.x) % 65536) value

def absolute_y_read (cpu : Cpu) (low_byte high_byte : Option Nat) : Option (Nat × Bool) := do
  let pre ← pack_bytes_wrapped low_byte high_byte
  let l ← low_byte
  let address := (pre + cpu.y) % 65536
  return (cpu.read address, 255 < l + cpu.y)

def absolute_y_write (cpu : Cpu) (low_byte high_byte : Option Nat) (value : Nat) :
    Option Cpu := do
  let pre ← pack_bytes_wrapped low_byte high_byte
  return cpu.write ((pre + cpu.y) % 65536) value

/-- `indirect_x_read`: page-0 pointer at `(l + X) mod 256`; the second pointer
byte is fetched from `base_address + 1` computed in 16 bits (the `as u16` cast
happens before the `+ 1`, so there is no page-0 wrap in the source). -/
def indirect_x_read (cpu : Cpu) (low_byte : Option Nat) : Option Nat := do
  let l ← low_byte
  let base_address := (l + cpu.x) % 256
  let resolved_address := pack_bytes (cpu.read base_address) (cpu.read (base_address + 1))
  return cpu.read resolved_address

def indirect_x_write (cpu : Cpu) (low_byte : Option Nat) (value : Nat) : Option Cpu := do
  let l ← low_byte
  let base_address := (l + cpu.x) % 256
  let resolved_address := pack_bytes (cpu.read base_address) (cpu.read (base_address + 1))
  return cpu.write resolved_address value

/-- `indirect_y_read`: pointer bytes from `l` and `(l+1) mod 256`;
`page_changed` is `low_base_address > high_base_address`, which for a byte `l`
holds exactly when `l = 0xFF`.  The final `+ Y` is a plain 16-bit add (wraps in
release builds); the read normalizes it modulo 2^16. -/
def indirect_y_read (cpu : Cpu) (low_byte : Option Nat) : Option (Nat × Bool) := do
  let l ← low_byte
  let low_base_address := l
  let high_base_address := (l + 1) % 256
  let page_changed := decide (high_base_address < low_base_address)
  let resolved_address :=
    pack_bytes (cpu.read low_base_address) (cpu.read high_base_address) + cpu.y
  return (cpu.read resolved_address, page_changed)

def indirect_y_write (cpu : Cpu) (low_byte : Option Nat) (value : Nat) : Option Cpu := do
  let l ← low_byte
  let low_base_address := l
  let high_base_address := (l + 1) % 256
  let resolved_address :=
    pack_bytes (cpu.read low_base_address) (cpu.read high_base_address) + cpu.y
  return cpu.write resolved_address value

/-! ### Decoder (`instruction/mod.rs`) -/

inductive AddressingMode where
  | Accumulator
  | Absolute
  | AbsoluteXIndexed
  | AbsoluteYIndexed
  | Immediate
  | Implied
  | Indirect
  | IndirectXIndexed
  | IndirectYIndexed
  | Relative
  | Zeropage
  | ZeropageXIndexed
  | ZeropageYIndexed
  deriving DecidableEq, Repr

/-- `bytes_required`: total instruction length including the opcode byte. -/
def AddressingMode.bytes_required : AddressingMode → Nat
  | .Accumulator | .Implied => 1
  | .Immediate | .IndirectXIndexed | .IndirectYIndexed | .Relative
  | .Zeropage | .ZeropageXIndexed | .ZeropageYIndexed => 2
  | .Absolute | .AbsoluteXIndexed | .AbsoluteYIndexed | .Indirect => 3

inductive Opcode where
  | ADC | AND | ASL | BCC | BCS | BEQ | BIT | BMI | BNE | BPL | BRK | BVC | BVS
  | CLC | CLD | CLI | CLV | CMP | CPX | CPY | DEC | DEX | DEY | EOR | INC | INX
  | INY | JMP | JSR | LDA | LDX | LDY | LSR | NOP | ORA | PHA | PHP | PLA | PLP
  | ROL | ROR | RTI | RTS | SBC | SEC | SED | SEI | STA | STX | STY | TAX | TAY
  | TSX | TXA | TXS | TYA
  deriving DecidableEq, Repr

structure FullOpcode where
  opcode : Opcode
  addressing_mode : AddressingMode
  deriving DecidableEq, Repr

structure Instruction where
  opcode : Opcode
  addressing_mode : AddressingMode
  low_byte : Option Nat
  high_byte : Option Nat
  deriving DecidableEq, Repr

/-- Shorthand for a decoded table entry. -/
def fo (o : Opcode) (m : AddressingMode) : Option FullOpcode :=
  some { opcode := o, addressing_mode := m }

def low_nibble_0 (high_nibble : Nat) : Option FullOpcode :=
  match high_nibble with
  | 0x0 => fo .BRK .Implied
  | 0x1 => fo .BPL .Relative
  | 0x2 => fo .JSR .Absolute
  | 0x3 => fo .BMI .Relative
  | 0x4 => fo .RTI .Implied
  | 0x5 => fo .BVC .Relative
  | 0x6 => fo .RTS .Implied
  | 0x7 => fo .BVS .Relative
  | 0x8 => none
  | 0x9 => fo .BCC .Relative
  | 0xA => fo .LDY .Immediate
  | 0xB => fo .BCS .Relative
  | 0xC => fo .CPY .Immediate
  | 0xD => fo .BNE .Relative
  | 0xE => fo .CPX .Immediate
  | 0xF => fo .BEQ .Relative
  | _ => none

def low_nibble_1 (high_nibble : Nat) : Option FullOpcode :=
  match high_nibble with
  | 0x0 => fo .ORA .IndirectXIndexed
  | 0x1 => fo .ORA .IndirectYIndexed
  | 0x2 => fo .AND .IndirectXIndexed
  | 0x3 => fo .AND .IndirectYIndexed
  | 0x4 => fo .EOR .IndirectXIndexed
  | 0x5 => fo .EOR .IndirectYIndexed
  | 0x6 => fo .ADC .IndirectXIndexed
  | 0x7 => fo .ADC .IndirectYIndexed
  | 0x8 => fo .STA .IndirectXIndexed
  | 0x9 => fo .STA .IndirectYIndexed
  | 0xA => fo .LDA .IndirectXIndexed
  | 0xB => fo .LDA .IndirectYIndexed
  | 0xC => fo .CMP .IndirectXIndexed
  | 0xD => fo .CMP .IndirectYIndexed
  | 0xE => fo .SBC .IndirectXIndexed
  | 0xF => fo .SBC .IndirectYIndexed
  | _ => none

def low_nibble_2 (high_nibble : Nat) : Option FullOpcode :=
  match high_nibble with
  | 0xA => fo .LDX .Immediate
  | _ => none

def low_nibble_4 (high_nibble : Nat) : Option FullOpcode :=
  match high_nibble with
  | 0x2 => fo .BIT .Zeropage
  | 0x8 => fo .STY .Zeropage
  | 0x9 => fo .STY .ZeropageXIndexed
  | 0xA => fo .LDY .Zeropage
  | 0xB => fo .LDY .ZeropageXIndexed
  | 0xC => fo .CPY .Zeropage
  | 0xE => fo .CPX .Zeropage
  | _ => none

def low_nibble_5 (high_nibble : Nat) : Option FullOpcode :=
  match high_nibble with
  | 0x0 => fo .ORA .Zeropage
  | 0x1 => fo .ORA .ZeropageXIndexed
  | 0x2 => fo .AND .Zeropage
  | 0x3 => fo .AND .ZeropageXIndexed
  | 0x4 => fo .EOR .Zeropage
  | 0x5 => fo .EOR .ZeropageXIndexed
  | 0x6 => fo .ADC .Zeropage
  | 0x7 => fo .ADC .ZeropageXIndexed
  | 0x8 => fo .STA .Zeropage
  | 0x9 => fo .STA .ZeropageXIndexed
  | 0xA => fo .LDA .Zeropage
  | 0xB => fo .LDA .ZeropageXIndexed
  | 0xC => fo .CMP .Zeropage
  | 0xD => fo .CMP .ZeropageXIndexed
  | 0xE => fo .SBC .Zeropage
  | 0xF => fo .SBC .ZeropageXIndexed
  | _ => none

def low_nibble_6 (high_nibble : Nat) : Option FullOpcode :=
  match high_nibble with
  | 0x0 => fo .ASL .Zeropage
  | 0x1 => fo .ASL .ZeropageXIndexed
  | 0x2 => fo .ROL .Zeropage
  | 0x3 => fo .ROL .ZeropageXIndexed
  | 0x4 => fo .LSR .Zeropage
  | 0x5 => fo .LSR .ZeropageXIndexed
  | 0x6 => fo .ROR .Zeropage
  | 0x7 => fo .ROR .ZeropageXIndexed
  | 0x8 => fo .STX .Zeropage
  | 0x9 => fo .STX .ZeropageXIndexed
  | 0xA => fo .LDX .Zeropage
  | 0xB => fo .LDX .ZeropageXIndexed
  | 0xC => fo .DEC .Zeropage
  | 0xD => fo .DEC .ZeropageXIndexed
  | 0xE => fo .INC .Zeropage
  | 0xF => fo .INC .ZeropageXIndexed
  | _ => none

def low_nibble_8 (high_nibble : Nat) : Option FullOpcode :=
  match high_nibble with
  | 0x0 => fo .PHP .Implied
  | 0x1 => fo .CLC .Implied
  | 0x2 => fo .PLP .Implied
  | 0x3 => fo .SEC .Implied
  | 0x4 => fo .PHA .Implied
  | 0x5 => fo .CLI .Implied
  | 0x6 => fo .PLA .Implied
  | 0x7 => fo .SEI .Implied
  | 0x8 => fo .DEY .Implied
  | 0x9 => fo .TYA .Implied
  | 0xA => fo .TAY .Implied
  | 0xB => fo .CLV .Implied
  | 0xC => fo .INY .Implied
  | 0xD => fo .CLD .Implied
  | 0xE => fo .INX .Implied
  | 0xF => fo .SED .Implied
  | _ => none

def low_nibble_9 (high_nibble : Nat) : Option FullOpcode :=
  match high_nibble with
  | 0x0 => fo .ORA .Immediate
  | 0x1 => fo .ORA .AbsoluteYIndexed
  | 0x2 => fo .AND .Immediate
  | 0x3 => fo .AND .AbsoluteYIndexed
  | 0x4 => fo .EOR .Immediate
  | 0x5 => fo .EOR .AbsoluteYIndexed
  | 0x6 => fo .ADC .Immediate
  | 0x7 => fo .ADC .AbsoluteYIndexed
  | 0x8 => none
  | 0x9 => fo .STA .AbsoluteYIndexed
  | 0xA => fo .LDA .Immediate
  | 0xB => fo .LDA .AbsoluteYIndexed
  | 0xC => fo .CMP .Immediate
  | 0xD => fo .CMP .AbsoluteYIndexed
  | 0xE => fo .SBC .Immediate
  | 0xF => fo .SBC .AbsoluteYIndexed
  | _ => none

def low_nibble_a (high_nibble : Nat) : Option FullOpcode :=
  match high_nibble with
  | 0x0 => fo .ASL .Accumulator
  | 0x2 => fo .ROL .Accumulator
  | 0x4 => fo .LSR .Accumulator
  | 0x6 => fo .ROR .Accumulator
  | 0x8 => fo .TXA .Implied
  | 0x9 => fo .TXS .Implied
  | 0xA => fo .TAX .Implied
  | 0xB => fo .TSX .Implied
  | 0xC => fo .DEX .Implied
  | 0xE => fo .NOP .Implied
  | _ => none

def low_nibble_c (high_nibble : Nat) : Option FullOpcode :=
  match high_nibble with
  | 0x2 => fo .BIT .Absolute
  | 0x4 => fo .JMP .Absolute
  | 0x6 => fo .JMP .Indirect
  | 0x8 => fo .STY .Absolute
  | 0xA => fo .LDY .Absolute
  | 0xB => fo .LDY .AbsoluteXIndexed
  | 0xC => fo .CPY .Absolute
  | 0xE => fo .CPX .Absolute
  | _ => none

def low_nibble_d (high_nibble : Nat) : Option FullOpcode :=
  match high_nibble with
  | 0x0 => fo .ORA .Absolute
  | 0x1 => fo .ORA .AbsoluteXIndexed
  | 0x2 => fo .AND .Absolute
  | 0x3 => fo .AND .AbsoluteXIndexed
  | 0x4 => fo .EOR .Absolute
  | 0x5 => fo .EOR .AbsoluteXIndexed
  | 0x6 => fo .ADC .Absolute
  | 0x7 => fo .ADC .AbsoluteXIndexed
  | 0x8 => fo .STA .Absolute
  | 0x9 => fo .STA .AbsoluteXIndexed
  | 0xA => fo .LDA .Absolute
  | 0xB => fo .LDA .AbsoluteXIndexed
  | 0xC => fo .CMP .Absolute
  | 0xD => fo .CMP .AbsoluteXIndexed
  | 0xE => fo .SBC .Absolute
  | 0xF => fo .SBC .AbsoluteXIndexed
  | _ => none

def low_nibble_e (high_nibble : Nat) : Option FullOpcode :=
  match high_nibble with
  | 0x0 => fo .ASL .Absolute
  | 0x1 => fo .ASL .AbsoluteXIndexed
  | 0x2 => fo .ROL .Absolute
  | 0x3 => fo .ROL .AbsoluteXIndexed
  | 0x4 => fo .LSR .Absolute
  | 0x5 => fo .LSR .AbsoluteXIndexed
  | 0x6 => fo .ROR .Absolute
  | 0x7 => fo .ROR .AbsoluteXIndexed
  | 0x8 => fo .STX .Absolute
  | 0x9 => none
  | 0xA => fo .LDX .Absolute
  | 0xB => fo .LDX .AbsoluteYIndexed
  | 0xC => fo .DEC .Absolute
  | 0xD => fo .DEC .AbsoluteXIndexed
  | 0xE => fo .INC .Absolute
  | 0xF => fo .INC .AbsoluteXIndexed
  | _ => none

/-- `FullOpcode::try_new`: decode one opcode byte.  `None` is an illegal
instruction; the `unreachable!` arms of the source are also `none` (they cannot
fire for a byte value below 256). -/
def FullOpcode.try_new (byte : Nat) : Option FullOpcode :=
  let low_nibble := byte &&& 0x0F
  let high_nibble := byte >>> 4
  match low_nibble with
  | 0x0 => low_nibble_0 high_nibble
  | 0x1 => low_nibble_1 high_nibble
  | 0x2 => low_nibble_2 high_nibble
  | 0x3 => none
  | 0x4 => low_nibble_4 high_nibble
  | 0x5 => low_nibble_5 high_nibble
  | 0x6 => low_nibble_6 high_nibble
  | 0x7 => none
  | 0x8 => low_nibble_8 high_nibble
  | 0x9 => low_nibble_9 high_nibble
  | 0xA => low_nibble_a high_nibble
  | 0xB => none
  | 0xC => low_nibble_c high_nibble
  | 0xD => low_nibble_d high_nibble
  | 0xE => low_nibble_e high_nibble
  | 0xF => none
  | _ => none

/-! ### Arithmetic (`execution/arithmetic.rs`) -/

/-- `adc_intermediate`: `A ← A + M + C` with C, V, Z, N updates.  The two
`wrapping_add`s read the carry flag before it is rewritten.  No decimal-mode
handling exists in the source. -/
def Cpu.adc_intermediate (cpu : Cpu) (value : Nat) : Cpu :=
  let shared_sign : Option Nat :=
    if cpu.accumulator >>> 7 = value >>> 7 then some (cpu.accumulator >>> 7) else none
  let carry_needed :=
    255 < value + cpu.accumulator + boolToNat (carry_flag cpu.processor_status)
  let acc :=
    ((cpu.accumulator + value) % 256 + boolToNat (carry_flag cpu.processor_status)) % 256
  let cpu := { cpu with accumulator := acc }
  let cpu := { cpu with processor_status :=
    if carry_needed then set_carry_flag cpu.processor_status
    else clear_carry_flag cpu.processor_status }
  let cpu := { cpu with processor_status :=
    match shared_sign with
    | some x =>
        if cpu.accumulator >>> 7 = x then clear_overflow_flag cpu.processor_status
        else set_overflow_flag cpu.processor_status
    | none => clear_overflow_flag cpu.processor_status }
  let cpu := cpu.modify_zero_flag cpu.accumulator
  cpu.modify_negative_flag cpu.accumulator

/-- `sbc_intermediate`: `ADC(value XOR 0xFF)`. -/
def Cpu.sbc_intermediate (cpu : Cpu) (value : Nat) : Cpu :=
  cpu.adc_intermediate (value ^^^ 0xFF)

def Cpu.cmp_intermediate (cpu : Cpu) (value : Nat) : Cpu :=
  let compared_value := (cpu.accumulator + 256 - value % 256) % 256
  let cpu := { cpu with processor_status :=
    if value ≤ cpu.accumulator then set_carry_flag cpu.processor_status
    else clear_carry_flag cpu.processor_status }
  let cpu := cpu.modify_zero_flag compared_value
  cpu.modify_negative_flag compared_value

def Cpu.cpx_intermediate (cpu : Cpu) (value : Nat) : Cpu :=
  let compared_value := (cpu.x + 256 - value % 256) % 256
  let cpu := { cpu with processor_status :=
    if value ≤ cpu.x then set_carry_flag cpu.processor_status
    else clear_carry_flag cpu.processor_status }
  let cpu := cpu.modify_zero_flag compared_value
  cpu.modify_negative_flag compared_value

def Cpu.cpy_intermediate (cpu : Cpu) (value : Nat) : Cpu :=
  let compared_value := (cpu.y + 256 - value % 256) % 256
  let cpu := { cpu with processor_status :=
    if value ≤ cpu.y then set_carry_flag cpu.processor_status
    else clear_carry_flag cpu.processor_status }
  let cpu := cpu.modify_zero_flag compared_value
  cpu.modify_negative_flag compared_value

def Cpu.instruction_adc (cpu : Cpu) (addressing_mode : AddressingMode)
    (low_byte high_byte : Option Nat) : Option (Cpu × Nat) :=
  match addressing_mode with
  | .Immediate => do
      let value ← immediate_read low_byte
      return (cpu.adc_intermediate value, 2)
  | .Zeropage => do
      let value ← zeropage_read cpu low_byte
      return (cpu.adc_intermediate value, 3)
  | .ZeropageXIndexed => do
      let value ← zeropage_x_read cpu low_byte
      return (cpu.adc_intermediate value, 4)
  | .Absolute => do
      let value ← absolute_read cpu low_byte high_byte
      return (cpu.adc_intermediate value, 4)
  | .AbsoluteXIndexed => do
      let (value, boundary_crossed) ← absolute_x_read cpu low_byte high_byte
      return (cpu.adc_intermediate value, if boundary_crossed then 5 else 4)
  | .AbsoluteYIndexed => do
      let (value, boundary_crossed) ← absolute_y_read cpu low_byte high_byte
      return (cpu.adc_intermediate value, if boundary_crossed then 5 else 4)
  | .IndirectXIndexed => do
      let value ← indirect_x_read cpu low_byte
      return (cpu.adc_intermediate value, 6)
  | .IndirectYIndexed => do
      let (value, boundary_crossed) ← indirect_y_read cpu low_byte
      return (cpu.adc_intermediate value, if boundary_crossed then 6 else 5)
  | _ => none

def Cpu.instruction_sbc (cpu : Cpu) (addressing_mode : AddressingMode)
    (low_byte high_byte : Option Nat) : Option (Cpu × Nat) :=
  match addressing_mode with
  | .Immediate => do
      let value ← immediate_read low_byte
      return (cpu.sbc_intermediate value, 2)
  | .Zeropage => do
      let value ← zeropage_read cpu low_byte
      return (cpu.sbc_intermediate value, 3)
  | .ZeropageXIndexed => do
      let value ← zeropage_x_read cpu low_byte
      return (cpu.sbc_intermediate value, 4)
  | .Absolute => do
      let value ← absolute_read cpu low_byte high_byte
      return (cpu.sbc_intermediate value, 4)
  | .AbsoluteXIndexed => do
      let (value, boundary_crossed) ← absolute_x_read cpu low_byte high_byte
      return (cpu.sbc_intermediate value, if boundary_crossed then 5 else 4)
  | .AbsoluteYIndexed => do
      let (value, boundary_crossed) ← absolute_y_read cpu low_byte high_byte
      return (cpu.sbc_intermediate value, if boundary_crossed then 5 else 4)
  | .IndirectXIndexed => do
      let value ← indirect_x_read cpu low_byte
      return (cpu.sbc_intermediate value, 6)
  | .IndirectYIndexed => do
      let (value, boundary_crossed) ← indirect_y_read cpu low_byte
      return (cpu.sbc_intermediate value, if boundary_crossed then 6 else 5)
  | _ => none

def Cpu.instruction_cmp (cpu : Cpu) (addressing_mode : AddressingMode)
    (low_byte high_byte : Option Nat) : Option (Cpu × Nat) :=
  match addressing_mode with
  | .Immediate => do
      let value ← immediate_read low_byte
      return (cpu.cmp_intermediate value, 2)
  | .Zeropage => do
      let value ← zeropage_read cpu low_byte
      return (cpu.cmp_intermediate value, 3)
  | .ZeropageXIndexed => do
      let value ← zeropage_x_read cpu low_byte
      return (cpu.cmp_intermediate value, 4)
  | .Absolute => do
      let value ← absolute_read cpu low_byte high_byte
      return (cpu.cmp_intermediate value, 4)
  | .AbsoluteXIndexed => do
      let (value, boundary_crossed) ← absolute_x_read cpu low_byte high_byte
      return (cpu.cmp_intermediate value, if boundary_crossed then 5 else 4)
  | .AbsoluteYIndexed => do
      let (value, boundary_crossed) ← absolute_y_read cpu low_byte high_byte
      return (cpu.cmp_intermediate value, if boundary_crossed then 5 else 4)
  | .IndirectXIndexed => do
      let value ← indirect_x_read cpu low_byte
      return (cpu.cmp_intermediate value, 6)
  | .IndirectYIndexed => do
      let (value, boundary_crossed) ← indirect_y_read cpu low_byte
      return (cpu.cmp_intermediate value, if boundary_crossed then 6 else 5)
  | _ => none

def Cpu.instruction_cpx (cpu : Cpu) (addressing_mode : AddressingMode)
    (low_byte high_byte : Option Nat) : Option (Cpu × Nat) :=
  match addressing_mode with
  | .Immediate => do
      let value ← immediate_read low_byte
      return (cpu.cpx_intermediate value, 2)
  | .Zeropage => do
      let value ← zeropage_read cpu low_byte
      return (cpu.cpx_intermediate value, 3)
  | .ZeropageXIndexed => do
      let value ← zeropage_x_read cpu low_byte
      return (cpu.cpx_intermediate value, 4)
  | .Absolute => do
      let value ← absolute_read cpu low_byte high_byte
      return (cpu.cpx_intermediate value, 4)
  | .AbsoluteXIndexed => do
      let (value, boundary_crossed) ← absolute_x_read cpu low_byte high_byte
      return (cpu.cpx_intermediate value, if boundary_crossed then 5 else 4)
  | .AbsoluteYIndexed => do
      let (value, boundary_crossed) ← absolute_y_read cpu low_byte high_byte
      return (cpu.cpx_intermediate value, if boundary_crossed then 5 else 4)
  | .IndirectXIndexed => do
      let value ← indirect_x_read cpu low_byte
      return (cpu.cpx_intermediate value, 6)
  | .IndirectYIndexed => do
      let (value, boundary_crossed) ← indirect_y_read cpu low_byte
      return (cpu.cpx_intermediate value, if boundary_crossed then 6 else 5)
  | _ => none

def Cpu.instruction_cpy (cpu : Cpu) (addressing_mode : AddressingMode)
    (low_byte high_byte : Option Nat) : Option (Cpu × Nat) :=
  match addressing_mode with
  | .Immediate => do
      let value ← immediate_read low_byte
      return (cpu.cpy_intermediate value, 2)
  | .Zeropage => do
      let value ← zeropage_read cpu low_byte
      return (cpu.cpy_intermediate value, 3)
  | .ZeropageXIndexed => do
      let value ← zeropage_x_read cpu low_byte
      return (cpu.cpy_intermediate value, 4)
  | .Absolute => do
      let value ← absolute_read cpu low_byte high_byte
      return (cpu.cpy_intermediate value, 4)
  | .AbsoluteXIndexed => do
      let (value, boundary_crossed) ← absolute_x_read cpu low_byte high_byte
      return (cpu.cpy_intermediate value, if boundary_crossed then 5 else 4)
  | .AbsoluteYIndexed => do
      let (value, boundary_crossed) ← absolute_y_read cpu low_byte high_byte
      return (cpu.cpy_intermediate value, if boundary_crossed then 5 else 4)
  | .IndirectXIndexed => do
      let value ← indirect_x_read cpu low_byte
      return (cpu.cpy_intermediate value, 6)
  | .IndirectYIndexed => do
      let (value, boundary_crossed) ← indirect_y_read cpu low_byte
      return (cpu.cpy_intermediate value, if boundary_crossed then 6 else 5)
  | _ => none

/-! ### Load / store (`execution/load_store.rs`) -/

def Cpu.instruction_lda (cpu : Cpu) (addressing_mode : AddressingMode)
    (low_byte high_byte : Option Nat) : Option (Cpu × Nat) :=
  match addressing_mode with
  | .Immediate => do
      let value ← immediate_read low_byte
      let cpu := { cpu with accumulator := value }
      return ((cpu.modify_negative_flag value).modify_zero_flag value, 2)
  | .Zeropage => do
      let value ← zeropage_read cpu low_byte
      let cpu := { cpu with accumulator := value }
      return ((cpu.modify_negative_flag value).modify_zero_flag value, 3)
  | .ZeropageXIndexed => do
      let value ← zeropage_x_read cpu low_byte
      let cpu := { cpu with accumulator := value }
      return ((cpu.modify_negative_flag value).modify_zero_flag value, 4)
  | .Absolute => do
      let value ← absolute_read cpu low_byte high_byte
      let cpu := { cpu with accumulator := value }
      return ((cpu.modify_negative_flag value).modify_zero_flag value, 4)
  | .AbsoluteXIndexed => do
      let (value, page_changed) ← absolute_x_read cpu low_byte high_byte
      let cpu := { cpu with accumulator := value }
      return ((cpu.modify_negative_flag value).modify_zero_flag value,
        if page_changed then 5 else 4)
  | .AbsoluteYIndexed => do
      let (value, page_changed) ← absolute_y_read cpu low_byte high_byte
      let cpu := { cpu with accumulator := value }
      return ((cpu.modify_negative_flag value).modify_zero_flag value,
        if page_changed then 5 else 4)
  | .IndirectXIndexed => do
      let value ← indirect_x_read cpu low_byte
      let cpu := { cpu with accumulator := value }
      return ((cpu.modify_negative_flag value).modify_zero_flag value, 6)
  | .IndirectYIndexed => do
      let (value, page_changed) ← indirect_y_read cpu low_byte
      let cpu := { cpu with accumulator := value }
      return ((cpu.modify_negative_flag value).modify_zero_flag value,
        if page_changed then 6 else 5)
  | _ => none

/-- `instruction_ldx` first patches the decoded mode: a byte that decodes to
ZeropageXIndexed means ZeropageYIndexed for LDX. -/
def Cpu.instruction_ldx (cpu : Cpu) (addressing_mode : AddressingMode)
    (low_byte high_byte : Option Nat) : Option (Cpu × Nat) :=
  let addressing_mode := match addressing_mode with
    | .ZeropageXIndexed => AddressingMode.ZeropageYIndexed
    | m => m
  match addressing_mode with
  | .Immediate => do
      let value ← immediate_read low_byte
      let cpu := { cpu with x := value }
      return ((cpu.modify_negative_flag value).modify_zero_flag value, 2)
  | .Zeropage => do
      let value ← zeropage_read cpu low_byte
      let cpu := { cpu with x := value }
      return ((cpu.modify_negative_flag value).modify_zero_flag value, 3)
  | .ZeropageYIndexed => do
      let value ← zeropage_y_read cpu low_byte
      let cpu := { cpu with x := value }
      return ((cpu.modify_negative_flag value).modify_zero_flag value, 4)
  | .Absolute => do
      let value ← absolute_read cpu low_byte high_byte
      let cpu := { cpu with x := value }
      return ((cpu.modify_negative_flag value).modify_zero_flag value, 4)
  | .AbsoluteYIndexed => do
      let (value, page_changed) ← absolute_y_read cpu low_byte high_byte
      let cpu := { cpu with x := value }
      return ((cpu.modify_negative_flag value).modify_zero_flag value,
        if page_changed then 5 else 4)
  | _ => none

def Cpu.instruction_ldy (cpu : Cpu) (addressing_mode : AddressingMode)
    (low_byte high_byte : Option Nat) : Option (Cpu × Nat) :=
  match addressing_mode with
  | .Immediate => do
      let value ← immediate_read low_byte
      let cpu := { cpu with y := value }
      return ((cpu.modify_negative_flag value).modify_zero_flag value, 2)
  | .Zeropage => do
      let value ← zeropage_read cpu low_byte
      let cpu := { cpu with y := value }
      return ((cpu.modify_negative_flag value).modify_zero_flag value, 3)
  | .ZeropageXIndexed => do
      let value ← zeropage_x_read cpu low_byte
      let cpu := { cpu with y := value }
      return ((cpu.modify_negative_flag value).modify_zero_flag value, 4)
  | .Absolute => do
      let value ← absolute_read cpu low_byte high_byte
      let cpu := { cpu with y := value }
      return ((cpu.modify_negative_flag value).modify_zero_flag value, 4)
  | .AbsoluteXIndexed => do
      let (value, page_changed) ← absolute_x_read cpu low_byte high_byte
      let cpu := { cpu with y := value }
      return ((cpu.modify_negative_flag value).modify_zero_flag value,
        if page_changed then 5 else 4)
  | _ => none

def Cpu.instruction_sta (cpu : Cpu) (addressing_mode : AddressingMode)
    (low_byte high_byte : Option Nat) : Option (Cpu × Nat) :=
  match addressing_mode with
  | .Zeropage => do
      let cpu ← zeropage_write cpu low_byte cpu.accumulator
      return (cpu, 3)
  | .ZeropageXIndexed => do
      let cpu ← zeropage_x_write cpu low_byte cpu.accumulator
      return (cpu, 4)
  | .Absolute => do
      let cpu ← absolute_write cpu low_byte high_byte cpu.accumulator
      return (cpu, 4)
  | .AbsoluteXIndexed => do
      let cpu ← absolute_x_write cpu low_byte high_byte cpu.accumulator
      return (cpu, 5)
  | .AbsoluteYIndexed => do
      let cpu ← absolute_y_write cpu low_byte high_byte cpu.accumulator
      return (cpu, 5)
  | .IndirectXIndexed => do
      let cpu ← indirect_x_write cpu low_byte cpu.accumulator
      return (cpu, 6)
  | .IndirectYIndexed => do
      let cpu ← indirect_y_write cpu low_byte cpu.accumulator
      return (cpu, 6)
  | _ => none

/-- `instruction_stx` patches ZeropageXIndexed to ZeropageYIndexed, like LDX. -/
def Cpu.instruction_stx (cpu : Cpu) (addressing_mode : AddressingMode)
    (low_byte high_byte : Option Nat) : Option (Cpu × Nat) :=
  let addressing_mode := match addressing_mode with
    | .ZeropageXIndexed => AddressingMode.ZeropageYIndexed
    | m => m
  match addressing_mode with
  | .Zeropage => do
      let cpu ← zeropage_write cpu low_byte cpu.x
      return (cpu, 3)
  | .ZeropageYIndexed => do
      let cpu ← zeropage_y_write cpu low_byte cpu.x
      return (cpu, 4)
  | .Absolute => do
      let cpu ← absolute_write cpu low_byte high_byte cpu.x
      return (cpu, 4)
  | _ => none

def Cpu.instruction_sty (cpu : Cpu) (addressing_mode : AddressingMode)
    (low_byte high_byte : Option Nat) : Option (Cpu × Nat) :=
  match addressing_mode with
  | .Zeropage => do
      let cpu ← zeropage_write cpu low_byte cpu.y
      return (cpu, 3)
  | .ZeropageXIndexed => do
      let cpu ← zeropage_x_write cpu low_byte cpu.y
      return (cpu, 4)
  | .Absolute => do
      let cpu ← absolute_write cpu low_byte high_byte cpu.y
      return (cpu, 4)
  | _ => none

/-! ### Branches (`execution/branches.rs`) -/

/-- The shared branch routine: signed offset applied to the post-fetch PC,
2 cycles not taken, 3 taken, 4 taken across a page. -/
def branch (cpu : Cpu) (low_byte : Option Nat) (needs_branch : Bool) :
    Option (Cpu × Nat) := do
  let l ← low_byte
  let value := twos_compliment_to_signed l
  let original_page := cpu.program_counter >>> 8
  let cpu :=
    if needs_branch then
      if 0 < value then
        { cpu with program_counter := (cpu.program_counter + value.toNat) % 65536 }
      else
        { cpu with program_counter :=
            (cpu.program_counter + 65536 - (-value).toNat % 65536) % 65536 }
    else cpu
  let new_page := cpu.program_counter >>> 8
  let page_crossed := original_page ≠ new_page
  return (cpu, if needs_branch then (if page_crossed then 4 else 3) else 2)

def Cpu.instruction_bcc (cpu : Cpu) (low_byte : Option Nat) : Option (Cpu × Nat) :=
  branch cpu low_byte (!carry_flag cpu.processor_status)

def Cpu.instruction_bcs (cpu : Cpu) (low_byte : Option Nat) : Option (Cpu × Nat) :=
  branch cpu low_byte (carry_flag cpu.processor_status)

def Cpu.instruction_beq (cpu : Cpu) (low_byte : Option Nat) : Option (Cpu × Nat) :=
  branch cpu low_byte (zero_flag cpu.processor_status)

def Cpu.instruction_bmi (cpu : Cpu) (low_byte : Option Nat) : Option (Cpu × Nat) :=
  branch cpu low_byte (negative_flag cpu.processor_status)

def Cpu.instruction_bne (cpu : Cpu) (low_byte : Option Nat) : Option (Cpu × Nat) :=
  branch cpu low_byte (!zero_flag cpu.processor_status)

def Cpu.instruction_bpl (cpu : Cpu) (low_byte : Option Nat) : Option (Cpu × Nat) :=
  branch cpu low_byte (!negative_flag cpu.processor_status)

def Cpu.instruction_bvc (cpu : Cpu) (low_byte : Option Nat) : Option (Cpu × Nat) :=
  branch cpu low_byte (!overflow_flag cpu.processor_status)

def Cpu.instruction_bvs (cpu : Cpu) (low_byte : Option Nat) : Option (Cpu × Nat) :=
  branch cpu low_byte (overflow_flag cpu.processor_status)

/-! ### Jumps and calls (`execution/jumps_calls.rs`) -/

/-- `instruction_jmp`.  The Indirect arm applies the 6502 page-wrap quirk:
when the pointer's low byte is 0xFF the high byte of the new PC is read from
`pointer - 0xFF` (the start of the same page) instead of `pointer + 1`. -/
def Cpu.instruction_jmp (cpu : Cpu) (addressing_mode : AddressingMode)
    (low_byte high_byte : Option Nat) : Option (Cpu × Nat) :=
  match addressing_mode with
  | .Absolute => do
      let address ← pack_bytes_wrapped low_byte high_byte
      return ({ cpu with program_counter := address }, 3)
  | .Indirect => do
      let base_address ← pack_bytes_wrapped low_byte high_byte
      let pc :=
        if base_address &&& 0xFF = 0xFF then
          pack_bytes (cpu.read base_address) (cpu.read (base_address - 0xFF))
        else
          pack_bytes (cpu.read base_address) (cpu.read (base_address + 1))
      return ({ cpu with program_counter := pc }, 5)
  | _ => none

/-- `instruction_jsr`: pushes `PC - 1` (computed with a plain `u16` subtract)
high byte then low byte, then jumps. -/
def Cpu.instruction_jsr (cpu : Cpu) (low_byte high_byte : Option Nat) :
    Option (Cpu × Nat) := do
  let subroutine_address ← pack_bytes_wrapped low_byte high_byte
  let (pc_low, pc_high) := unpack_bytes (cpu.program_counter - 1)
  let cpu ← cpu.push pc_high
  let cpu ← cpu.push pc_low
  return ({ cpu with program_counter := subroutine_address }, 6)

def Cpu.instruction_rts (cpu : Cpu) : Option (Cpu × Nat) := do
  let (cpu, pc_low) ← cpu.pop
  let (cpu, pc_high) ← cpu.pop
  return ({ cpu with program_counter := pack_bytes pc_low pc_high + 1 }, 6)

/-! ### Increment / decrement (`execution/incr_decr.rs`) -/

def Cpu.instruction_inc (cpu : Cpu) (addressing_mode : AddressingMode)
    (low_byte high_byte : Option Nat) : Option (Cpu × Nat) :=
  match addressing_mode with
  | .Zeropage => do
      let value ← zeropage_read cpu low_byte
      let value := (value + 1) % 256
      let cpu := (cpu.modify_zero_flag value).modify_negative_flag value
      let cpu ← zeropage_write cpu low_byte value
      return (cpu, 5)
  | .ZeropageXIndexed => do
      let value ← zeropage_x_read cpu low_byte
      let value := (value + 1) % 256
      let cpu := (cpu.modify_zero_flag value).modify_negative_flag value
      let cpu ← zeropage_x_write cpu low_byte value
      return (cpu, 6)
  | .Absolute => do
      let value ← absolute_read cpu low_byte high_byte
      let value := (value + 1) % 256
      let cpu := (cpu.modify_zero_flag value).modify_negative_flag value
      let cpu ← absolute_write cpu low_byte high_byte value
      return (cpu, 6)
  | .AbsoluteXIndexed => do
      let (value, _) ← absolute_x_read cpu low_byte high_byte
      let value := (value + 1) % 256
      let cpu := (cpu.modify_zero_flag value).modify_negative_flag value
      let cpu ← absolute_x_write cpu low_byte high_byte value
      return (cpu, 7)
  | _ => none

def Cpu.instruction_inx (cpu : Cpu) : Option (Cpu × Nat) :=
  let cpu := { cpu with x := (cpu.x + 1) % 256 }
  some ((cpu.modify_zero_flag cpu.x).modify_negative_flag cpu.x, 2)

def Cpu.instruction_iny (cpu : Cpu) : Option (Cpu × Nat) :=
  let cpu := { cpu with y := (cpu.y + 1) % 256 }
  some ((cpu.modify_zero_flag cpu.y).modify_negative_flag cpu.y, 2)

def Cpu.instruction_dec (cpu : Cpu) (addressing_mode : AddressingMode)
    (low_byte high_byte : Option Nat) : Option (Cpu × Nat) :=
  match addressing_mode with
  | .Zeropage => do
      let value ← zeropage_read cpu low_byte
      let value := (value + 255) % 256
      let cpu := (cpu.modify_zero_flag value).modify_negative_flag value
      let cpu ← zeropage_write cpu low_byte value
      return (cpu, 5)
  | .ZeropageXIndexed => do
      let value ← zeropage_x_read cpu low_byte
      let value := (value + 255) % 256
      let cpu := (cpu.modify_zero_flag value).modify_negative_flag value
      let cpu ← zeropage_x_write cpu low_byte value
      return (cpu, 6)
  | .Absolute => do
      let value ← absolute_read cpu low_byte high_byte
      let value := (value + 255) % 256
      let cpu := (cpu.modify_zero_flag value).modify_negative_flag value
      let cpu ← absolute_write cpu low_byte high_byte value
      return (cpu, 6)
  | .AbsoluteXIndexed => do
      let (value, _) ← absolute_x_read cpu low_byte high_byte
      let value := (value + 255) % 256
      let cpu := (cpu.modify_zero_flag value).modify_negative_flag value
      let cpu ← absolute_x_write cpu low_byte high_byte value
      return (cpu, 7)
  | _ => none

def Cpu.instruction_dex (cpu : Cpu) : Option (Cpu × Nat) :=
  let cpu := { cpu with x := (cpu.x + 255) % 256 }
  some ((cpu.modify_zero_flag cpu.x).modify_negative_flag cpu.x, 2)

def Cpu.instruction_dey (cpu : Cpu) : Option (Cpu × Nat) :=
  let cpu := { cpu with y := (cpu.y + 255) % 256 }
  some ((cpu.modify_zero_flag cpu.y).modify_negative_flag cpu.y, 2)

/-! ### Shifts (`execution/shifts.rs`)

`<<= 1` on a `u8` keeps the low 8 bits; `>>= 1` is a plain halving. -/

def Cpu.instruction_asl (cpu : Cpu) (addressing_mode : AddressingMode)
    (low_byte high_byte : Option Nat) : Option (Cpu × Nat) :=
  match addressing_mode with
  | .Accumulator =>
      let cpu := { cpu with processor_status :=
        if cpu.accumulator &&& 0x80 ≠ 0 then set_carry_flag cpu.processor_status
        else clear_carry_flag cpu.processor_status }
      let cpu := { cpu with accumulator := (cpu.accumulator <<< 1) % 256 }
      some ((cpu.modify_negative_flag cpu.accumulator).modify_zero_flag cpu.accumulator, 2)
  | .Zeropage => do
      let value ← zeropage_read cpu low_byte
      let cpu := { cpu with processor_status :=
        if value &&& 0x80 ≠ 0 then set_carry_flag cpu.processor_status
        else clear_carry_flag cpu.processor_status }
      let value := (value <<< 1) % 256
      let cpu := (cpu.modify_negative_flag value).modify_zero_flag value
      let cpu ← zeropage_write cpu low_byte value
      return (cpu, 5)
  | .ZeropageXIndexed => do
      let value ← zeropage_x_read cpu low_byte
      let cpu := { cpu with processor_status :=
        if value &&& 0x80 ≠ 0 then set_carry_flag cpu.processor_status
        else clear_carry_flag cpu.processor_status }
      let value := (value <<< 1) % 256
      let cpu := (cpu.modify_negative_flag value).modify_zero_flag value
      let cpu ← zeropage_x_write cpu low_byte value
      return (cpu, 6)
  | .Absolute => do
      let value ← absolute_read cpu low_byte high_byte
      let cpu := { cpu with processor_status :=
        if value &&& 0x80 ≠ 0 then set_carry_flag cpu.processor_status
        else clear_carry_flag cpu.processor_status }
      let value := (value <<< 1) % 256
      let cpu := (cpu.modify_negative_flag value).modify_zero_flag value
      let cpu ← absolute_write cpu low_byte high_byte value
      return (cpu, 6)
  | .AbsoluteXIndexed => do
      let (value, _) ← absolute_x_read cpu low_byte high_byte
      let cpu := { cpu with processor_status :=
        if value &&& 0x80 ≠ 0 then set_carry_flag cpu.processor_status
        else clear_carry_flag cpu.processor_status }
      let value := (value <<< 1) % 256
      let cpu := (cpu.modify_negative_flag value).modify_zero_flag value
      let cpu ← absolute_x_write cpu low_byte high_byte value
      return (cpu, 7)
  | _ => none

def Cpu.instruction_lsr (cpu : Cpu) (addressing_mode : AddressingMode)
    (low_byte high_byte : Option Nat) : Option (Cpu × Nat) :=
  match addressing_mode with
  | .Accumulator =>
      let cpu := { cpu with processor_status :=
        if cpu.accumulator &&& 0x01 ≠ 0 then set_carry_flag cpu.processor_status
        else clear_carry_flag cpu.processor_status }
      let cpu := { cpu with accumulator := cpu.accumulator >>> 1 }
      some ((cpu.modify_negative_flag cpu.accumulator).modify_zero_flag cpu.accumulator, 2)
  | .Zeropage => do
      let value ← zeropage_read cpu low_byte
      let cpu := { cpu with processor_status :=
        if value &&& 0x01 ≠ 0 then set_carry_flag cpu.processor_status
        else clear_carry_flag cpu.processor_status }
      let value := value >>> 1
      let cpu := (cpu.modify_negative_flag value).modify_zero_flag value
      let cpu ← zeropage_write cpu low_byte value
      return (cpu, 5)
  | .ZeropageXIndexed => do
      let value ← zeropage_x_read cpu low_byte
      let cpu := { cpu with processor_status :=
        if value &&& 0x01 ≠ 0 then set_carry_flag cpu.processor_status
        else clear_carry_flag cpu.processor_status }
      let value := value >>> 1
      let cpu := (cpu.modify_negative_flag value).modify_zero_flag value
      let cpu ← zeropage_x_write cpu low_byte value
      return (cpu, 6)
  | .Absolute => do
      let value ← absolute_read cpu low_byte high_byte
      let cpu := { cpu with processor_status :=
        if value &&& 0x01 ≠ 0 then set_carry_flag cpu.processor_status
        else clear_carry_flag cpu.processor_status }
      let value := value >>> 1
      let cpu := (cpu.modify_negative_flag value).modify_zero_flag value
      let cpu ← absolute_write cpu low_byte high_byte value
      return (cpu, 6)
  | .AbsoluteXIndexed => do
      let (value, _) ← absolute_x_read cpu low_byte high_byte
      let cpu := { cpu with processor_status :=
        if value &&& 0x01 ≠ 0 then set_carry_flag cpu.processor_status
        else clear_carry_flag cpu.processor_status }
      let value := value >>> 1
      let cpu := (cpu.modify_negative_flag value).modify_zero_flag value
      let cpu ← absolute_x_write cpu low_byte high_byte value
      return (cpu, 7)
  | _ => none

def Cpu.instruction_rol (cpu : Cpu) (addressing_mode : AddressingMode)
    (low_byte high_byte : Option Nat) : Option (Cpu × Nat) :=
  match addressing_mode with
  | .Accumulator =>
      let old_carry_flag := carry_flag cpu.processor_status
      let cpu := { cpu with processor_status :=
        if cpu.accumulator &&& 0x80 ≠ 0 then set_carry_flag cpu.processor_status
        else clear_carry_flag cpu.processor_status }
      let cpu := { cpu with accumulator :=
        ((cpu.accumulator <<< 1) % 256) ||| boolToNat old_carry_flag }
      some ((cpu.modify_negative_flag cpu.accumulator).modify_zero_flag cpu.accumulator, 2)
  | .Zeropage => do
      let value ← zeropage_read cpu low_byte
      let old_carry_flag := carry_flag cpu.processor_status
      let cpu := { cpu with processor_status :=
        if value &&& 0x80 ≠ 0 then set_carry_flag cpu.processor_status
        else clear_carry_flag cpu.processor_status }
      let value := ((value <<< 1) % 256) ||| boolToNat old_carry_flag
      let cpu := (cpu.modify_negative_flag value).modify_zero_flag value
      let cpu ← zeropage_write cpu low_byte value
      return (cpu, 5)
  | .ZeropageXIndexed => do
      let value ← zeropage_x_read cpu low_byte
      let old_carry_flag := carry_flag cpu.processor_status
      let cpu := { cpu with processor_status :=
        if value &&& 0x80 ≠ 0 then set_carry_flag cpu.processor_status
        else clear_carry_flag cpu.processor_status }
      let value := ((value <<< 1) % 256) ||| boolToNat old_carry_flag
      let cpu := (cpu.modify_negative_flag value).modify_zero_flag value
      let cpu ← zeropage_x_write cpu low_byte value
      return (cpu, 6)
  | .Absolute => do
      let value ← absolute_read cpu low_byte high_byte
      let old_carry_flag := carry_flag cpu.processor_status
      let cpu := { cpu with processor_status :=
        if value &&& 0x80 ≠ 0 then set_carry_flag cpu.processor_status
        else clear_carry_flag cpu.processor_status }
      let value := ((value <<< 1) % 256) ||| boolToNat old_carry_flag
      let cpu := (cpu.modify_negative_flag value).modify_zero_flag value
      let cpu ← absolute_write cpu low_byte high_byte value
      return (cpu, 6)
  | .AbsoluteXIndexed => do
      let (value, _) ← absolute_x_read cpu low_byte high_byte
      let old_carry_flag := carry_flag cpu.processor_status
      let cpu := { cpu with processor_status :=
        if value &&& 0x80 ≠ 0 then set_carry_flag cpu.processor_status
        else clear_carry_flag cpu.processor_status }
      let value := ((value <<< 1) % 256) ||| boolToNat old_carry_flag
      let cpu := (cpu.modify_negative_flag value).modify_zero_flag value
      let cpu ← absolute_x_write cpu low_byte high_byte value
      return (cpu, 7)
  | _ => none

def Cpu.instruction_ror (cpu : Cpu) (addressing_mode : AddressingMode)
    (low_byte high_byte : Option Nat) : Option (Cpu × Nat) :=
  match addressing_mode with
  | .Accumulator =>
      let old_carry_flag := carry_flag cpu.processor_status
      let cpu := { cpu with processor_status :=
        if cpu.accumulator &&& 0x01 ≠ 0 then set_carry_flag cpu.processor_status
        else clear_carry_flag cpu.processor_status }
      let cpu := { cpu with accumulator :=
        (cpu.accumulator >>> 1) ||| (boolToNat old_carry_flag <<< 7) }
      some ((cpu.modify_zero_flag cpu.accumulator).modify_negative_flag cpu.accumulator, 2)
  | .Zeropage => do
      let value ← zeropage_read cpu low_byte
      let old_carry_flag := carry_flag cpu.processor_status
      let cpu := { cpu with processor_status :=
        if value &&& 0x01 ≠ 0 then set_carry_flag cpu.processor_status
        else clear_carry_flag cpu.processor_status }
      let value := (value >>> 1) ||| (boolToNat old_carry_flag <<< 7)
      let cpu := (cpu.modify_zero_flag value).modify_negative_flag value
      let cpu ← zeropage_write cpu low_byte value
      return (cpu, 5)
  | .ZeropageXIndexed => do
      let value ← zeropage_x_read cpu low_byte
      let old_carry_flag := carry_flag cpu.processor_status
      let cpu := { cpu with processor_status :=
        if value &&& 0x01 ≠ 0 then set_carry_flag cpu.processor_status
        else clear_carry_flag cpu.processor_status }
      let value := (value >>> 1) ||| (boolToNat old_carry_flag <<< 7)
      let cpu := (cpu.modify_zero_flag value).modify_negative_flag value
      let cpu ← zeropage_x_write cpu low_byte value
      return (cpu, 6)
  | .Absolute => do
      let value ← absolute_read cpu low_byte high_byte
      let old_carry_flag := carry_flag cpu.processor_status
      let cpu := { cpu with processor_status :=
        if value &&& 0x01 ≠ 0 then set_carry_flag cpu.processor_status
        else clear_carry_flag cpu.processor_status }
      let value := (value >>> 1) ||| (boolToNat old_carry_flag <<< 7)
      let cpu := (cpu.modify_zero_flag value).modify_negative_flag value
      let cpu ← absolute_write cpu low_byte high_byte value
      return (cpu, 6)
  | .AbsoluteXIndexed => do
      let (value, _) ← absolute_x_read cpu low_byte high_byte
      let old_carry_flag := carry_flag cpu.processor_status
      let cpu := { cpu with processor_status :=
        if value &&& 0x01 ≠ 0 then set_carry_flag cpu.processor_status
        else clear_carry_flag cpu.processor_status }
      let value := (value >>> 1) ||| (boolToNat old_carry_flag <<< 7)
      let cpu := (cpu.modify_zero_flag value).modify_negative_flag value
      let cpu ← absolute_x_write cpu low_byte high_byte value
      return (cpu, 7)
  | _ => none

/-! ### Stack instructions (`execution/stack.rs`) -/

def Cpu.instruction_tsx (cpu : Cpu) : Option (Cpu × Nat) :=
  let cpu := { cpu with x := cpu.stack_pointer }
  some ((cpu.modify_zero_flag cpu.x).modify_negative_flag cpu.x, 2)

def Cpu.instruction_txs (cpu : Cpu) : Option (Cpu × Nat) :=
  some ({ cpu with stack_pointer := cpu.x }, 2)

def Cpu.instruction_pha (cpu : Cpu) : Option (Cpu × Nat) := do
  let cpu ← cpu.push cpu.accumulator
  return (cpu, 3)

/-- `instruction_php`: pushes P with B forced set, then clears B again. -/
def Cpu.instruction_php (cpu : Cpu) : Option (Cpu × Nat) := do
  let cpu := { cpu with processor_status := set_break_flag cpu.processor_status }
  let cpu ← cpu.push cpu.processor_status
  let cpu := { cpu with processor_status := clear_break_flag cpu.processor_status }
  return (cpu, 3)

def Cpu.instruction_pla (cpu : Cpu) : Option (Cpu × Nat) := do
  let (cpu, byte) ← cpu.pop
  let cpu := { cpu with accumulator := byte }
  return ((cpu.modify_zero_flag cpu.accumulator).modify_negative_flag cpu.accumulator, 4)

/-- `instruction_plp`: the popped byte replaces P except bits 4 and 5, which
keep their current values. -/
def Cpu.instruction_plp (cpu : Cpu) : Option (Cpu × Nat) := do
  let original_flags := cpu.processor_status &&& 0x30
  let (cpu, byte) ← cpu.pop
  return ({ cpu with processor_status := (byte &&& 0xCF) ||| original_flags }, 4)

/-! ### System (`execution/system.rs`) -/

/-- Which event triggered the shared BRK routine. -/
inductive InterruptState where
  | Inactive
  | Reset
  | MaskableInterrupt
  | NonMaskableInterrupt
  deriving DecidableEq, Repr

def NMI_VECTOR_ADDRESS : Nat := 0xFFFA
def RESET_VECTOR_ADDRESS : Nat := 0xFFFC
def IRQ_BRK_VECTOR_ADDRESS : Nat := 0xFFFE

/-- `instruction_brk`: push PC high, PC low, then P (with B forced set only
for BRK/Reset); set I; load PC from the vector chosen by `interrupt_state`. -/
def Cpu.instruction_brk (cpu : Cpu) (interrupt_state : InterruptState) :
    Option (Cpu × Nat) := do
  let (pc_low, pc_high) := unpack_bytes cpu.program_counter
  let cpu ← cpu.push pc_high
  let cpu ← cpu.push pc_low
  let cpu :=
    if interrupt_state = .Inactive ∨ interrupt_state = .Reset then
      { cpu with processor_status := set_break_flag cpu.processor_status }
    else cpu
  let cpu ← cpu.push cpu.processor_status
  let cpu :=
    if interrupt_state = .Inactive ∨ interrupt_state = .Reset then
      { cpu with processor_status := clear_break_flag cpu.processor_status }
    else cpu
  let cpu := { cpu with processor_status :=
    set_interrupt_disable_flag cpu.processor_status }
  let cpu := { cpu with program_counter :=
    match interrupt_state with
    | .Inactive | .MaskableInterrupt =>
        pack_bytes (cpu.read IRQ_BRK_VECTOR_ADDRESS) (cpu.read (IRQ_BRK_VECTOR_ADDRESS + 1))
    | .Reset =>
        pack_bytes (cpu.read RESET_VECTOR_ADDRESS) (cpu.read (RESET_VECTOR_ADDRESS + 1))
    | .NonMaskableInterrupt =>
        pack_bytes (cpu.read NMI_VECTOR_ADDRESS) (cpu.read (NMI_VECTOR_ADDRESS + 1)) }
  return (cpu, 7)

def Cpu.instruction_nop (cpu : Cpu) : Option (Cpu × Nat) := some (cpu, 2)

/-- `instruction_rti`: pop P (keeping current bits 4/5), then PC low, PC high. -/
def Cpu.instruction_rti (cpu : Cpu) : Option (Cpu × Nat) := do
  let original_flags := cpu.processor_status &&& 0x30
  let (cpu, byte) ← cpu.pop
  let cpu := { cpu with processor_status := (byte &&& 0xCF) ||| original_flags }
  let (cpu, pc_low) ← cpu.pop
  let (cpu, pc_high) ← cpu.pop
  return ({ cpu with program_counter := pack_bytes pc_low pc_high }, 6)

/-! ### Logical, register transfers, status flags

The repository snapshot does not contain `execution/logical.rs`,
`execution/register_transfers.rs` or `execution/status_flags.rs` (the module
declarations and the dispatcher arms are present, the bodies are not).  The
definitions below are modelled from the spec, §4.3: bitwise AND/ORA/EOR with
N and Z from the result; BIT; register copies with N and Z; single-flag
setters at 2 cycles; cycle counts from the standard table. -/

/-- Modelled from the spec: AND/ORA/EOR share their data path with LDA,
differing only in the combining function. -/
def Cpu.logical_intermediate (cpu : Cpu) (f : Nat → Nat → Nat) (value : Nat) : Cpu :=
  let result := f cpu.accumulator value
  let cpu := { cpu with accumulator := result }
  (cpu.modify_negative_flag result).modify_zero_flag result

/-- Modelled from the spec: one generic routine for a logical instruction,
parameterized by the combining function, covering the modes the decoder can
produce for AND/ORA/EOR. -/
def Cpu.instruction_logical (cpu : Cpu) (f : Nat → Nat → Nat)
    (addressing_mode : AddressingMode) (low_byte high_byte : Option Nat) :
    Option (Cpu × Nat) :=
  match addressing_mode with
  | .Immediate => do
      let value ← immediate_read low_byte
      return (cpu.logical_intermediate f value, 2)
  | .Zeropage => do
      let value ← zeropage_read cpu low_byte
      return (cpu.logical_intermediate f value, 3)
  | .ZeropageXIndexed => do
      let value ← zeropage_x_read cpu low_byte
      return (cpu.logical_intermediate f value, 4)
  | .Absolute => do
      let value ← absolute_read cpu low_byte high_byte
      return (cpu.logical_intermediate f value, 4)
  | .AbsoluteXIndexed => do
      let (value, page_changed) ← absolute_x_read cpu low_byte high_byte
      return (cpu.logical_intermediate f value, if page_changed then 5 else 4)
  | .AbsoluteYIndexed => do
      let (value, page_changed) ← absolute_y_read cpu low_byte high_byte
      return (cpu.logical_intermediate f value, if page_changed then 5 else 4)
  | .IndirectXIndexed => do
      let value ← indirect_x_read cpu low_byte
      return (cpu.logical_intermediate f value, 6)
  | .IndirectYIndexed => do
      let (value, page_changed) ← indirect_y_read cpu low_byte
      return (cpu.logical_intermediate f value, if page_changed then 6 else 5)
  | _ => none

/-- Modelled from the spec: `A ← A AND M`, N and Z from the result. -/
def Cpu.instruction_and (cpu : Cpu) (addressing_mode : AddressingMode)
    (low_byte high_byte : Option Nat) : Option (Cpu × Nat) :=
  cpu.instruction_logical (fun a m => a &&& m) addressing_mode low_byte high_byte

/-- Modelled from the spec: `A ← A OR M`, N and Z from the result. -/
def Cpu.instruction_ora (cpu : Cpu) (addressing_mode : AddressingMode)
    (low_byte high_byte : Option Nat) : Option (Cpu × Nat) :=
  cpu.instruction_logical (fun a m => a ||| m) addressing_mode low_byte high_byte

/-- Modelled from the spec: `A ← A XOR M`, N and Z from the result. -/
def Cpu.instruction_eor (cpu : Cpu) (addressing_mode : AddressingMode)
    (low_byte high_byte : Option Nat) : Option (Cpu × Nat) :=
  cpu.instruction_logical (fun a m => a ^^^ m) addressing_mode low_byte high_byte

/-- Modelled from the spec: BIT sets `Z ← (A AND M) == 0`, `N ← bit 7 of M`,
`V ← bit 6 of M`; A is unchanged.  The decoder produces only the Zeropage
(3 cycles) and Absolute (4 cycles) modes. -/
def Cpu.instruction_bit (cpu : Cpu) (addressing_mode : AddressingMode)
    (low_byte high_byte : Option Nat) : Option (Cpu × Nat) :=
  let apply : Cpu → Nat → Cpu := fun cpu value =>
    let cpu := cpu.modify_zero_flag (cpu.accumulator &&& value)
    let cpu := { cpu with processor_status :=
      if (value.testBit 6) then set_overflow_flag cpu.processor_status
      else clear_overflow_flag cpu.processor_status }
    cpu.modify_negative_flag value
  match addressing_mode with
  | .Zeropage => do
      let value ← zeropage_read cpu low_byte
      return (apply cpu value, 3)
  | .Absolute => do
      let value ← absolute_read cpu low_byte high_byte
      return (apply cpu value, 4)
  | _ => none

/-- Modelled from the spec: `X ← A`, N and Z from the result, 2 cycles. -/
def Cpu.instruction_tax (cpu : Cpu) : Option (Cpu × Nat) :=
  let cpu := { cpu with x := cpu.accumulator }
  some ((cpu.modify_zero_flag cpu.x).modify_negative_flag cpu.x, 2)

/-- Modelled from the spec: `Y ← A`, N and Z from the result, 2 cycles. -/
def Cpu.instruction_tay (cpu : Cpu) : Option (Cpu × Nat) :=
  let cpu := { cpu with y := cpu.accumulator }
  some ((cpu.modify_zero_flag cpu.y).modify_negative_flag cpu.y, 2)

/-- Modelled from the spec: `A ← X`, N and Z from the result, 2 cycles. -/
def Cpu.instruction_txa (cpu : Cpu) : Option (Cpu × Nat) :=
  let cpu := { cpu with accumulator := cpu.x }
  some ((cpu.modify_zero_flag cpu.accumulator).modify_negative_flag cpu.accumulator, 2)

/-- Modelled from the spec: `A ← Y`, N and Z from the result, 2 cycles. -/
def Cpu.instruction_tya (cpu : Cpu) : Option (Cpu × Nat) :=
  let cpu := { cpu with accumulator := cpu.y }
  some ((cpu.modify_zero_flag cpu.accumulator).modify_negative_flag cpu.accumulator, 2)

/-- Modelled from the spec: clear C, 2 cycles. -/
def Cpu.instruction_clc (cpu : Cpu) : Option (Cpu × Nat) :=
  some ({ cpu with processor_status := clear_carry_flag cpu.processor_status }, 2)

/-- Modelled from the spec: clear D, 2 cycles. -/
def Cpu.instruction_cld (cpu : Cpu) : Option (Cpu × Nat) :=
  some ({ cpu with processor_status := clear_decimal_flag cpu.processor_status }, 2)

/-- Modelled from the spec: clear I, 2 cycles. -/
def Cpu.instruction_cli (cpu : Cpu) : Option (Cpu × Nat) :=
  some ({ cpu with processor_status := clear_interrupt_disable_flag cpu.processor_status }, 2)

/-- Modelled from the spec: clear V, 2 cycles. -/
def Cpu.instruction_clv (cpu : Cpu) : Option (Cpu × Nat) :=
  some ({ cpu with processor_status := clear_overflow_flag cpu.processor_status }, 2)

/-- Modelled from the spec: set C, 2 cycles. -/
def Cpu.instruction_sec (cpu : Cpu) : Option (Cpu × Nat) :=
  some ({ cpu with processor_status := set_carry_flag cpu.processor_status }, 2)

/-- Modelled from the spec: set D, 2 cycles. -/
def Cpu.instruction_sed (cpu : Cpu) : Option (Cpu × Nat) :=
  some ({ cpu with processor_status := set_decimal_flag cpu.processor_status }, 2)

/-- Modelled from the spec: set I, 2 cycles. -/
def Cpu.instruction_sei (cpu : Cpu) : Option (Cpu × Nat) :=
  some ({ cpu with processor_status := set_interrupt_disable_flag cpu.processor_status }, 2)

/-! ### Fetch, execute, cycle (`lib.rs`) -/

/-- `Cpu::fetch`: decode the byte at PC, read 0–2 operand bytes, advance PC.
An undecodable opcode is `none` (surfaced, not an abort). -/
def Cpu.fetch (cpu : Cpu) : Option (Cpu × Instruction) := do
  let full_opcode ← FullOpcode.try_new (cpu.read cpu.program_counter)
  let bytes_required :=
    full_opcode.addressing_mode.bytes_required +
      (if full_opcode.opcode = .BRK then 1 else 0)
  let (low_byte, high_byte) : Option Nat × Option Nat :=
    match bytes_required with
    | 1 => (none, none)
    | 2 => (some (cpu.read ((cpu.program_counter + 1) % 65536)), none)
    | _ => (some (cpu.read ((cpu.program_counter + 1) % 65536)),
            some (cpu.read ((cpu.program_counter + 2) % 65536)))
  let cpu := { cpu with
    program_counter := (cpu.program_counter + bytes_required) % 65536 }
  return (cpu, { opcode := full_opcode.opcode,
                 addressing_mode := full_opcode.addressing_mode,
                 low_byte := low_byte, high_byte := high_byte })

/-- `Cpu::execute`: dispatch on the opcode. -/
def Cpu.execute (cpu : Cpu) (instruction : Instruction) : Option (Cpu × Nat) :=
  let m := instruction.addressing_mode
  let l := instruction.low_byte
  let h := instruction.high_byte
  match instruction.opcode with
  | .ADC => cpu.instruction_adc m l h
  | .AND => cpu.instruction_and m l h
  | .ASL => cpu.instruction_asl m l h
  | .BCC => cpu.instruction_bcc l
  | .BCS => cpu.instruction_bcs l
  | .BEQ => cpu.instruction_beq l
  | .BIT => cpu.instruction_bit m l h
  | .BMI => cpu.instruction_bmi l
  | .BNE => cpu.instruction_bne l
  | .BPL => cpu.instruction_bpl l
  | .BRK => cpu.instruction_brk .Inactive
  | .BVC => cpu.instruction_bvc l
  | .BVS => cpu.instruction_bvs l
  | .CLC => cpu.instruction_clc
  | .CLD => cpu.instruction_cld
  | .CLI => cpu.instruction_cli
  | .CLV => cpu.instruction_clv
  | .CMP => cpu.instruction_cmp m l h
  | .CPX => cpu.instruction_cpx m l h
  | .CPY => cpu.instruction_cpy m l h
  | .DEC => cpu.instruction_dec m l h
  | .DEX => cpu.instruction_dex
  | .DEY => cpu.instruction_dey
  | .EOR => cpu.instruction_eor m l h
  | .INC => cpu.instruction_inc m l h
  | .INX => cpu.instruction_inx
  | .INY => cpu.instruction_iny
  | .JMP => cpu.instruction_jmp m l h
  | .JSR => cpu.instruction_jsr l h
  | .LDA => cpu.instruction_lda m l h
  | .LDX => cpu.instruction_ldx m l h
  | .LDY => cpu.instruction_ldy m l h
  | .LSR => cpu.instruction_lsr m l h
  | .NOP => cpu.instruction_nop
  | .ORA => cpu.instruction_ora m l h
  | .PHA => cpu.instruction_pha
  | .PHP => cpu.instruction_php
  | .PLA => cpu.instruction_pla
  | .PLP => cpu.instruction_plp
  | .ROL => cpu.instruction_rol m l h
  | .ROR => cpu.instruction_ror m l h
  | .RTI => cpu.instruction_rti
  | .RTS => cpu.instruction_rts
  | .SBC => cpu.instruction_sbc m l h
  | .SEC => cpu.instruction_sec
  | .SED => cpu.instruction_sed
  | .SEI => cpu.instruction_sei
  | .STA => cpu.instruction_sta m l h
  | .STX => cpu.instruction_stx m l h
  | .STY => cpu.instruction_sty m l h
  | .TAX => cpu.instruction_tax
  | .TAY => cpu.instruction_tay
  | .TSX => cpu.instruction_tsx
  | .TXA => cpu.instruction_txa
  | .TXS => cpu.instruction_txs
  | .TYA => cpu.instruction_tya

/-- `Cpu::cycle`: poll NMI, then IRQ when I is clear, else fetch and execute.
The `fetch().unwrap()` of the source means an undecodable opcode aborts
`cycle`; that abort, like the stack over/underflow panics, is `none`. -/
def Cpu.cycle (cpu : Cpu) : Option (Cpu × Nat) :=
  if cpu.nmi then
    ({ cpu with nmi := false }).instruction_brk .NonMaskableInterrupt
  else
    let interrupts_disabled := cpu.processor_status &&& 0x04 ≠ 0
    if cpu.irq ∧ ¬interrupts_disabled then
      ({ cpu with irq := false }).instruction_brk .MaskableInterrupt
    else do
      let (cpu', instruction) ← cpu.fetch
      cpu'.execute instruction

/-- `Cpu::cycle_debug`: like `cycle` but without interrupt polling; an
undecodable opcode yields `(0, false, no instruction)` with the CPU
untouched. -/
def Cpu.cycle_debug (cpu : Cpu) : Option (Cpu × Nat × Bool × Option Instruction) :=
  match cpu.fetch with
  | none => some (cpu, 0, false, none)
  | some (cpu', instruction) =>
      (cpu'.execute instruction).map fun (c, n) => (c, n, true, some instruction)

/-- `Cpu::reset`: clear C, Z, D, V, N, B, set I, then Reset-vector via BRK. -/
def Cpu.reset (cpu : Cpu) : Option (Cpu × Nat) :=
  let p := cpu.processor_status
  let p := clear_carry_flag p
  let p := clear_zero_flag p
  let p := set_interrupt_disable_flag p
  let p := clear_decimal_flag p
  let p := clear_overflow_flag p
  let p := clear_negative_flag p
  let p := clear_break_flag p
  ({ cpu with processor_status := p }).instruction_brk .Reset

/-! ### Helper lemmas -/

theorem get_flag_set_flag (p i j : Nat) :
    get_flag (set_flag p i) j = (get_flag p j || decide (i = j)) := by
  unfold get_flag set_flag
  rw [Nat.one_shiftLeft, Nat.testBit_or, Nat.testBit_two_pow]

theorem get_flag_clear_flag (p i j : Nat) :
    get_flag (clear_flag p i) j
      = (get_flag p j && Bool.xor (decide (j < 8)) (decide (i = j))) := by
  unfold get_flag clear_flag
  rw [Nat.one_shiftLeft, Nat.testBit_and, Nat.testBit_xor]
  rw [show (255 : Nat) = 2 ^ 8 - 1 from rfl]
  rw [Nat.testBit_two_pow_sub_one, Nat.testBit_two_pow]

/-- A 16-bit word assembled from a low byte below 256 is `256 * high + low`. -/
theorem pack_bytes_eq (l h : Nat) (hl : l < 256) : pack_bytes l h = 256 * h + l := by
  unfold pack_bytes
  apply Nat.eq_of_testBit_eq
  intro i
  rw [show 256 * h + l = 2 ^ 8 * h + l by ring]
  rw [Nat.testBit_mul_pow_two_add h (by simpa using hl) i]
  rw [Nat.testBit_or, Nat.testBit_shiftLeft]
  by_cases hi : i < 8
  · have h8 : ¬ 8 ≤ i := by omega
    simp [hi, h8]
  · have h8 : 8 ≤ i := by omega
    have hlz : l.testBit i = false :=
      Nat.testBit_lt_two_pow (lt_of_lt_of_le (by simpa using hl)
        (Nat.pow_le_pow_right (by norm_num) h8))
    simp [hi, h8, hlz]

/-- The stack lives at `0x0100 | S`, which is `0x0100 + S` for a byte-sized S. -/
theorem stack_address_eq (sp : Nat) (h : sp < 256) : 0x0100 ||| sp = 256 + sp := by
  have h1 := pack_bytes_eq sp 1 h
  unfold pack_bytes at h1
  rw [show (1 : Nat) <<< 8 = 256 from rfl] at h1
  omega

theorem Cpu.read_write_eq (cpu : Cpu) (a v a' : Nat) (h : a' % 65536 = a % 65536) :
    (cpu.write a v).read a' = v % 256 := by
  simp [Cpu.read, Cpu.write, h]

theorem Cpu.read_write_ne (cpu : Cpu) (a v a' : Nat) (h : a' % 65536 ≠ a % 65536) :
    (cpu.write a v).read a' = cpu.read a' := by
  simp [Cpu.read, Cpu.write, h]

theorem Cpu.read_lt (cpu : Cpu) (a : Nat) : cpu.read a < 256 := by
  simp [Cpu.read]
  omega

/-- Masking a pointer whose low byte is 0xFF with 0xFF00 yields the page base. -/
theorem mask_ff00 (h : Nat) (hh : h < 256) : (256 * h + 255) &&& 0xFF00 = 256 * h := by
  apply Nat.eq_of_testBit_eq
  intro i
  rw [Nat.testBit_and]
  rw [show 256 * h + 255 = 2 ^ 8 * h + 255 by ring]
  rw [Nat.testBit_mul_pow_two_add h (by norm_num) i]
  rw [show (0xFF00 : Nat) = 2 ^ 8 * 255 + 0 by norm_num]
  rw [Nat.testBit_mul_pow_two_add 255 (by norm_num) i]
  rw [show 256 * h = 2 ^ 8 * h + 0 by ring]
  rw [Nat.testBit_mul_pow_two_add h (by norm_num) i]
  by_cases hi : i < 8
  · simp [hi]
  · simp only [hi, if_neg, ite_false]
    by_cases hi2 : i - 8 < 8
    · have h255 : (255 : Nat).testBit (i - 8) = true := by
        rw [show (255 : Nat) = 2 ^ 8 - 1 from rfl, Nat.testBit_two_pow_sub_one]
        simpa using hi2
      simp [h255]
    · have hle : (256 : Nat) ≤ 2 ^ (i - 8) := by
        calc (256 : Nat) = 2 ^ 8 := by norm_num
        _ ≤ 2 ^ (i - 8) := Nat.pow_le_pow_right (by norm_num) (by omega)
      have hz : h.testBit (i - 8) = false :=
        Nat.testBit_lt_two_pow (lt_of_lt_of_le hh hle)
      simp [hz]

/-- XOR with 0xFF complements a byte. -/
theorem xor_255 (b : Nat) (hb : b < 256) : b ^^^ 255 = 255 - b := by
  apply Nat.eq_of_testBit_eq
  intro i
  rw [Nat.testBit_xor]
  rw [show (255 : Nat) = 2 ^ 8 - 1 from rfl, Nat.testBit_two_pow_sub_one]
  rw [show (2 : Nat) ^ 8 - 1 - b = 2 ^ 8 - (b + 1) by omega]
  rw [Nat.testBit_two_pow_sub_succ hb]
  by_cases hi : i < 8
  · simp [hi]
  · have hz : b.testBit i = false :=
      Nat.testBit_lt_two_pow (lt_of_lt_of_le hb
        (by calc (256 : Nat) = 2 ^ 8 := by norm_num
            _ ≤ 2 ^ i := Nat.pow_le_pow_right (by norm_num) (by omega)))
    simp [hi, hz]

/-- The low byte of an assembled 16-bit word. -/
theorem pack_low_byte (l h : Nat) (hl : l < 256) : pack_bytes l h &&& 0xFF = l := by
  rw [pack_bytes_eq l h hl]
  rw [show (0xFF : Nat) = 2 ^ 8 - 1 from rfl]
  rw [Nat.and_pow_two_sub_one_eq_mod]
  omega

/-! ### Claims -/

/-- C7: the decoder `FullOpcode.try_new` is a pure, total, deterministic
function of the opcode byte alone; it returns `none` for every byte whose low
nibble is 0x3, 0x7, 0xB or 0xF, and it decodes exactly 151 of the 256
possible byte values. -/
theorem c7_decoder_totality :
    (((List.range 256).filter fun b => (FullOpcode.try_new b).isSome).length = 151)
    ∧ ((((List.range 256).filter fun b =>
          b % 16 = 0x3 ∨ b % 16 = 0x7 ∨ b % 16 = 0xB ∨ b % 16 = 0xF).all
        fun b => (FullOpcode.try_new b).isNone) = true) := by
  set_option maxRecDepth 4096 in decide

set_option maxHeartbeats 2000000 in
/-- C3: for every accumulator value A, operand byte M and incoming carry C,
ADC stores the low 8 bits of `A + M + C`, sets C iff the unsigned sum exceeds
255, sets V iff A and M share a sign bit differing from the result's sign bit,
sets N to bit 7 of the result and Z iff the result is 0, leaves the decimal
flag untouched (and the result does not depend on it), and ADC immediate
takes 2 cycles. -/
theorem c3_adc_immediate (cpu : Cpu) (m : Nat)
    (ha : cpu.accumulator < 256) (hm : m < 256) :
    cpu.instruction_adc .Immediate (some m) none = some (cpu.adc_intermediate m, 2)
    ∧ (cpu.adc_intermediate m).accumulator
        = (cpu.accumulator + m + boolToNat (carry_flag cpu.processor_status)) % 256
    ∧ (carry_flag (cpu.adc_intermediate m).processor_status = true
        ↔ 255 < cpu.accumulator + m + boolToNat (carry_flag cpu.processor_status))
    ∧ (overflow_flag (cpu.adc_intermediate m).processor_status = true
        ↔ (cpu.accumulator >>> 7 = m >>> 7
            ∧ ((cpu.accumulator + m + boolToNat (carry_flag cpu.processor_status)) % 256) >>> 7
                ≠ cpu.accumulator >>> 7))
    ∧ (negative_flag (cpu.adc_intermediate m).processor_status = true
        ↔ ((cpu.accumulator + m + boolToNat (carry_flag cpu.processor_status)) % 256).testBit 7
            = true)
    ∧ (zero_flag (cpu.adc_intermediate m).processor_status = true
        ↔ (cpu.accumulator + m + boolToNat (carry_flag cpu.processor_status)) % 256 = 0)
    ∧ decimal_flag (cpu.adc_intermediate m).processor_status
        = decimal_flag cpu.processor_status := by
  refine ⟨rfl, ?_, ?_, ?_, ?_, ?_, ?_⟩ <;>
  · simp only [Cpu.adc_intermediate, Cpu.modify_zero_flag, Cpu.modify_negative_flag]
    split_ifs <;>
      (try simp only [carry_flag, zero_flag, negative_flag, overflow_flag, decimal_flag,
        set_carry_flag, clear_carry_flag, set_zero_flag, clear_zero_flag,
        set_negative_flag, clear_negative_flag, set_overflow_flag, clear_overflow_flag,
        get_flag_set_flag, get_flag_clear_flag]) <;>
      (try split_ifs) <;>
      (try simp only [carry_flag, zero_flag, negative_flag, overflow_flag, decimal_flag,
        set_carry_flag, clear_carry_flag, set_zero_flag, clear_zero_flag,
        set_negative_flag, clear_negative_flag, set_overflow_flag, clear_overflow_flag,
        get_flag_set_flag, get_flag_clear_flag]) <;>
      (try simp only [carry_flag, zero_flag, negative_flag, overflow_flag, decimal_flag,
        Nat.shiftRight_eq_div_pow, Nat.testBit_to_div_mod] at *) <;>
      first
        | rfl
        | omega
        | (simp; omega)
        | simp

/-- A CPU with all registers zero and zeroed memory, the base for the
concrete scenarios below. -/
def baseCpu : Cpu :=
  { accumulator := 0, x := 0, y := 0, stack_pointer := 0, program_counter := 0,
    processor_status := 0, mem := fun _ => 0, irq := false, nmi := false,
    initialized := true }

/-- Scenario S1: ADC immediate with `A = 0x50`, `M = 0x50`, `C = 0` yields
`A = 0xA0` with `C = 0, Z = 0, N = 1, V = 1` in 2 cycles. -/
theorem c3_adc_immediate_witness :
    ({ baseCpu with accumulator := 0x50 }.adc_intermediate 0x50).accumulator = 0xA0
    ∧ carry_flag ({ baseCpu with accumulator := 0x50 }.adc_intermediate 0x50).processor_status
        = false
    ∧ zero_flag ({ baseCpu with accumulator := 0x50 }.adc_intermediate 0x50).processor_status
        = false
    ∧ negative_flag ({ baseCpu with accumulator := 0x50 }.adc_intermediate 0x50).processor_status
        = true
    ∧ overflow_flag ({ baseCpu with accumulator := 0x50 }.adc_intermediate 0x50).processor_status
        = true
    ∧ { baseCpu with accumulator := 0x50 }.instruction_adc .Immediate (some 0x50) none
        = some ({ baseCpu with accumulator := 0x50 }.adc_intermediate 0x50, 2) := by
  have h := c3_adc_immediate { baseCpu with accumulator := 0x50 } 0x50
    (by decide) (by decide)
  exact ⟨by decide, by decide, by decide, by decide, by decide, h.1⟩

/-- C1 (counterexample): with `Y = 1`, `low_operand = 0x10` and the zero-page
pointer low byte `0xFF` at address 0x10, we have `pointer_low + Y > 0xFF`, yet
`indirect_y_read` reports no page crossing and LDA (zp),Y takes 5 cycles, not
6 — the claimed condition `low_operand = 0xFF ∨ pointer_low + Y > 0xFF` does
not match the code. -/
theorem c1_counterexample :
    (indirect_y_read { baseCpu with y := 1, mem := fun a => if a = 0x10 then 0xFF else 0 }
        (some 0x10)).map Prod.snd = some false
    ∧ 255 < ({ baseCpu with y := 1, mem := fun a => if a = 0x10 then 0xFF else 0 } :
        Cpu).read 0x10 + 1
    ∧ (({ baseCpu with y := 1, mem := fun a => if a = 0x10 then 0xFF else 0 } :
        Cpu).instruction_lda .IndirectYIndexed (some 0x10) none).map Prod.snd = some 5 := by
  refine ⟨by decide, by decide, by decide⟩

/-- C1 (amended): for every CPU state and indirect-Y read, the page-crossed
flag — and hence the extra LDA (zp),Y cycle (6 instead of 5) — is reported
exactly when `low_operand = 0xFF`; the value of `pointer_low + Y` plays no
part in it. -/
theorem c1_indirect_y_page_cross (cpu : Cpu) (l : Nat) (hl : l < 256) :
    (indirect_y_read cpu (some l)).map Prod.snd = some (decide (l = 255))
    ∧ (cpu.instruction_lda .IndirectYIndexed (some l) none).map Prod.snd
        = some (if l = 255 then 6 else 5) := by
  have hiff : ((l + 1) % 256 < l) ↔ l = 255 := by
    constructor
    · intro h
      by_contra hne
      have hlt : l + 1 < 256 := by omega
      rw [Nat.mod_eq_of_lt hlt] at h
      omega
    · intro h
      subst h
      decide
  constructor
  · simp [indirect_y_read, Option.bind]
    exact hiff
  · simp [Cpu.instruction_lda, indirect_y_read, Option.bind]
    by_cases h : l = 255
    · simp [h, hiff]
    · simp [h, hiff]

/-- C1 witness: at `low_operand = 0xFF` the flag is reported and LDA takes 6
cycles; at `low_operand = 0x10` (even with `pointer_low + Y > 0xFF`) it is not
and LDA takes 5. -/
theorem c1_indirect_y_page_cross_witness :
    (indirect_y_read { baseCpu with y := 1, mem := fun a => if a = 0x10 then 0xFF else 0 }
        (some 0xFF)).map Prod.snd = some true
    ∧ (({ baseCpu with y := 1, mem := fun a => if a = 0x10 then 0xFF else 0 } :
        Cpu).instruction_lda .IndirectYIndexed (some 0xFF) none).map Prod.snd = some 6
    ∧ (indirect_y_read { baseCpu with y := 1, mem := fun a => if a = 0x10 then 0xFF else 0 }
        (some 0x10)).map Prod.snd = some false := by
  have h1 := c1_indirect_y_page_cross
    { baseCpu with y := 1, mem := fun a => if a = 0x10 then 0xFF else 0 } 0xFF (by decide)
  have h2 := c1_indirect_y_page_cross
    { baseCpu with y := 1, mem := fun a => if a = 0x10 then 0xFF else 0 } 0x10 (by decide)
  exact ⟨h1.1.trans (by decide), h1.2.trans (by decide), h2.1.trans (by decide)⟩

/-- C2 (counterexample): a push with `S = 0x00` aborts (the source panics with
"Cpu stack overflow") instead of wrapping to `S = 0xFF`; a pop with `S = 0xFF`
aborts ("Cpu stack underflow"); and `cycle()` aborts on an undecodable opcode
(0x03) because of `fetch().unwrap()` — so the core is not abort-free. -/
theorem c2_counterexample :
    ({ baseCpu with stack_pointer := 0 } : Cpu).push 0xAB = none
    ∧ ({ baseCpu with stack_pointer := 0xFF } : Cpu).pop = none
    ∧ ({ baseCpu with mem := fun a => if a = 0 then 0x03 else 0 } : Cpu).cycle = none := by
  refine ⟨rfl, rfl, rfl⟩

/-- C2 (amended): stack operations are not wrapping: a push faults exactly
when `S = 0x00` and otherwise decrements S by one, a pop faults exactly when
`S = 0xFF` and otherwise increments S by one, and `cycle()` faults when the
byte at PC does not decode (no interrupt pending). -/
theorem c2_stack_faults (cpu : Cpu) (b : Nat) :
    (cpu.stack_pointer = 0 → cpu.push b = none)
    ∧ (cpu.stack_pointer ≠ 0 →
        (cpu.push b).map Cpu.stack_pointer = some (cpu.stack_pointer - 1))
    ∧ (cpu.stack_pointer = 255 → cpu.pop = none)
    ∧ (cpu.stack_pointer ≠ 255 →
        cpu.pop.map (fun pr => pr.1.stack_pointer) = some (cpu.stack_pointer + 1))
    ∧ (cpu.nmi = false → cpu.irq = false →
        FullOpcode.try_new (cpu.read cpu.program_counter) = none → cpu.cycle = none) := by
  refine ⟨?_, ?_, ?_, ?_, ?_⟩
  · intro h
    simp [Cpu.push, h]
  · intro h
    simp [Cpu.push, h]
  · intro h
    simp [Cpu.pop, h]
  · intro h
    simp [Cpu.pop, h]
  · intro hn hi hd
    simp [Cpu.cycle, hn, hi, Cpu.fetch, hd, Option.bind]

/-- C2 witness: concrete stack faults and successes. -/
theorem c2_stack_faults_witness :
    (({ baseCpu with stack_pointer := 0 } : Cpu).push 0xAB = none)
    ∧ (({ baseCpu with stack_pointer := 5 } : Cpu).push 0xAB).map Cpu.stack_pointer = some 4
    ∧ (({ baseCpu with stack_pointer := 0xFF } : Cpu).pop = none)
    ∧ (({ baseCpu with stack_pointer := 5 } : Cpu).pop.map (fun pr => pr.1.stack_pointer)
        = some 6) := by
  have h1 := c2_stack_faults { baseCpu with stack_pointer := 0 } 0xAB
  have h2 := c2_stack_faults { baseCpu with stack_pointer := 5 } 0xAB
  have h3 := c2_stack_faults { baseCpu with stack_pointer := 0xFF } 0xAB
  exact ⟨h1.1 (by decide), h2.2.1 (by decide), h3.2.2.1 (by decide),
    h2.2.2.2.1 (by decide)⟩

/-- C4: JMP Indirect with a pointer whose low byte is 0xFF reads the new PC's
low byte from the pointer and its high byte from `pointer &&& 0xFF00` (the
same page); any other pointer reads the high byte from `pointer + 1`; JMP
Indirect takes 5 cycles, and JMP Absolute sets PC to the 16-bit operand in 3
cycles. -/
theorem c4_jmp (cpu : Cpu) (l h : Nat) (hl : l < 256) (hh : h < 256) :
    (l = 0xFF →
      cpu.instruction_jmp .Indirect (some l) (some h)
        = some ({ cpu with
            program_counter :=
              256 * cpu.read ((256 * h + 255) &&& 0xFF00) + cpu.read (256 * h + 255) }, 5))
    ∧ (l ≠ 0xFF →
      cpu.instruction_jmp .Indirect (some l) (some h)
        = some ({ cpu with
            program_counter :=
              256 * cpu.read (256 * h + l + 1) + cpu.read (256 * h + l) }, 5))
    ∧ cpu.instruction_jmp .Absolute (some l) (some h)
        = some ({ cpu with program_counter := 256 * h + l }, 3) := by
  refine ⟨?_, ?_, ?_⟩
  · intro hl255
    subst hl255
    rw [mask_ff00 h hh]
    simp only [Cpu.instruction_jmp, pack_bytes_wrapped, Option.bind_eq_bind, Option.bind]
    rw [pack_bytes_eq 0xFF h (by norm_num)]
    have hcond : (256 * h + 0xFF) &&& 0xFF = 0xFF := by
      rw [show (0xFF : Nat) = 2 ^ 8 - 1 from rfl, Nat.and_pow_two_sub_one_eq_mod]
      omega
    rw [if_pos hcond]
    rw [show 256 * h + 0xFF - 0xFF = 256 * h by omega]
    rw [pack_bytes_eq _ _ (cpu.read_lt _)]
    norm_num
  · intro hne
    simp only [Cpu.instruction_jmp, pack_bytes_wrapped, Option.bind_eq_bind, Option.bind]
    rw [pack_bytes_eq l h hl]
    have hcond : ¬((256 * h + l) &&& 0xFF = 0xFF) := by
      rw [show (0xFF : Nat) = 2 ^ 8 - 1 from rfl, Nat.and_pow_two_sub_one_eq_mod]
      omega
    rw [if_neg hcond]
    rw [pack_bytes_eq _ _ (cpu.read_lt _)]
    rfl
  · simp only [Cpu.instruction_jmp, pack_bytes_wrapped, Option.bind_eq_bind, Option.bind]
    rw [pack_bytes_eq l h hl]
    rfl

/-- Scenario S2 for C4: `JMP ($30FF)` with `0x30FF ↦ 0x80` and `0x3000 ↦ 0x40`
jumps to 0x4080 (high byte from 0x3000, not 0x3100) in 5 cycles. -/
theorem c4_jmp_witness :
    ({ baseCpu with
        mem := fun a => if a = 0x30FF then 0x80 else if a = 0x3000 then 0x40 else 0 } :
      Cpu).instruction_jmp .Indirect (some 0xFF) (some 0x30)
      = some ({ baseCpu with
          mem := fun a => if a = 0x30FF then 0x80 else if a = 0x3000 then 0x40 else 0,
          program_counter := 0x4080 }, 5)
    ∧ ({ baseCpu with
        mem := fun a => if a = 0x30FF then 0x80 else if a = 0x3000 then 0x40 else 0 } :
      Cpu).instruction_jmp .Absolute (some 0x34) (some 0x12)
      = some ({ baseCpu with
          mem := fun a => if a = 0x30FF then 0x80 else if a = 0x3000 then 0x40 else 0,
          program_counter := 0x1234 }, 3) := by
  constructor
  · have h := (c4_jmp { baseCpu with
        mem := fun a => if a = 0x30FF then 0x80 else if a = 0x3000 then 0x40 else 0 }
      0xFF 0x30 (by decide) (by decide)).1 (by decide)
    have hv : 256 * ({ baseCpu with
        mem := fun a => if a = 0x30FF then 0x80 else if a = 0x3000 then 0x40 else 0 } :
          Cpu).read ((256 * 0x30 + 255) &&& 0xFF00)
        + ({ baseCpu with
        mem := fun a => if a = 0x30FF then 0x80 else if a = 0x3000 then 0x40 else 0 } :
          Cpu).read (256 * 0x30 + 255) = 0x4080 := by decide
    rw [hv] at h
    exact h
  · have h := (c4_jmp { baseCpu with
        mem := fun a => if a = 0x30FF then 0x80 else if a = 0x3000 then 0x40 else 0 }
      0x34 0x12 (by decide) (by decide)).2.2
    have hv : 256 * 0x12 + 0x34 = 0x1234 := by norm_num
    rw [hv] at h
    exact h

/-- C5 (counterexample): indirect-X with `X = 1`, `low_operand = 0xFE` puts
the pointer base at 0xFF; the code fetches the pointer's second byte from
address 0x0100, not from 0x0000 as the zero-page-wrap claim requires, so the
loaded value (0xAA, via pointer 0x0200) differs from the value the claim
predicts (0xBB, via pointer 0x0300). -/
theorem c5_counterexample :
    indirect_x_read
      { baseCpu with
          x := 1,
          mem := fun a =>
            if a = 0x0100 then 0x02 else if a = 0 then 0x03 else
            if a = 0x0200 then 0xAA else if a = 0x0300 then 0xBB else 0 }
      (some 0xFE) = some 0xAA
    ∧ ({ baseCpu with
          x := 1,
          mem := fun a =>
            if a = 0x0100 then 0x02 else if a = 0 then 0x03 else
            if a = 0x0200 then 0xAA else if a = 0x0300 then 0xBB else 0 } :
        Cpu).read (pack_bytes
          (({ baseCpu with
              x := 1,
              mem := fun a =>
                if a = 0x0100 then 0x02 else if a = 0 then 0x03 else
                if a = 0x0200 then 0xAA else if a = 0x0300 then 0xBB else 0 } :
            Cpu).read ((0xFE + 1) % 256))
          (({ baseCpu with
              x := 1,
              mem := fun a =>
                if a = 0x0100 then 0x02 else if a = 0 then 0x03 else
                if a = 0x0200 then 0xAA else if a = 0x0300 then 0xBB else 0 } :
            Cpu).read ((0xFE + 1 + 1) % 256))) = 0xBB
    ∧ (0xAA : Nat) ≠ 0xBB := by
  refine ⟨?_, by decide, by decide⟩
  rfl

/-- C5 (amended): indirect-X reads the pointer from page-0 address
`(low_operand + X) mod 256` and from that address plus one **without**
wrapping inside page 0: when the base is 0xFF the second pointer byte comes
from address 0x0100. -/
theorem c5_indirect_x_no_wrap (cpu : Cpu) (l v : Nat) :
    indirect_x_read cpu (some l)
      = some (cpu.read (pack_bytes (cpu.read ((l + cpu.x) % 256))
          (cpu.read ((l + cpu.x) % 256 + 1))))
    ∧ indirect_x_write cpu (some l) v
      = some (cpu.write (pack_bytes (cpu.read ((l + cpu.x) % 256))
          (cpu.read ((l + cpu.x) % 256 + 1))) v)
    ∧ ((l + cpu.x) % 256 = 255 →
        indirect_x_read cpu (some l)
          = some (cpu.read (256 * cpu.read 0x0100 + cpu.read 0x00FF))) := by
  refine ⟨rfl, rfl, ?_⟩
  intro h255
  simp only [indirect_x_read, Option.bind_eq_bind, Option.bind, h255]
  rw [pack_bytes_eq _ _ (cpu.read_lt _)]
  norm_num

/-- C5 witness: the no-wrap conclusion at a concrete state with base 0xFF. -/
theorem c5_indirect_x_no_wrap_witness :
    (0xFE + ({ baseCpu with
        x := 1,
        mem := fun a =>
          if a = 0x0100 then 0x02 else if a = 0 then 0x03 else
          if a = 0x0200 then 0xAA else if a = 0x0300 then 0xBB else 0 } : Cpu).x) % 256
      = 255
    ∧ indirect_x_read
        { baseCpu with
            x := 1,
            mem := fun a =>
              if a = 0x0100 then 0x02 else if a = 0 then 0x03 else
              if a = 0x0200 then 0xAA else if a = 0x0300 then 0xBB else 0 }
        (some 0xFE)
      = some (({ baseCpu with
          x := 1,
          mem := fun a =>
            if a = 0x0100 then 0x02 else if a = 0 then 0x03 else
            if a = 0x0200 then 0xAA else if a = 0x0300 then 0xBB else 0 } : Cpu).read
          (256 * ({ baseCpu with
              x := 1,
              mem := fun a =>
                if a = 0x0100 then 0x02 else if a = 0 then 0x03 else
                if a = 0x0200 then 0xAA else if a = 0x0300 then 0xBB else 0 } : Cpu).read
              0x0100
            + ({ baseCpu with
                x := 1,
                mem := fun a =>
                  if a = 0x0100 then 0x02 else if a = 0 then 0x03 else
                  if a = 0x0200 then 0xAA else if a = 0x0300 then 0xBB else 0 } : Cpu).read
              0x00FF)) := by
  have h := (c5_indirect_x_no_wrap
    { baseCpu with
        x := 1,
        mem := fun a =>
          if a = 0x0100 then 0x02 else if a = 0 then 0x03 else
          if a = 0x0200 then 0xAA else if a = 0x0300 then 0xBB else 0 }
    0xFE 0).2.2
  exact ⟨by decide, h (by decide)⟩

/-- C10: when the byte at PC does not decode, `cycle_debug` reports 0 cycles,
`ok = false` and no instruction, and returns the CPU state — registers, flags
and memory — entirely unchanged. -/
theorem c10_undecodable (cpu : Cpu)
    (hd : FullOpcode.try_new (cpu.read cpu.program_counter) = none) :
    cpu.cycle_debug = some (cpu, 0, false, none) := by
  have hf : cpu.fetch = none := by
    unfold Cpu.fetch
    rw [hd]
    rfl
  unfold Cpu.cycle_debug
  rw [hf]

/-- C8: each branch instruction delegates to `branch` with its flag
condition; an untaken branch leaves the CPU unchanged and costs 2 cycles; a
taken branch adds the operand as a signed 8-bit offset to the post-fetch PC
(modulo 2^16) and costs 3 cycles, or 4 when the PC's high byte changes; and in
scenario S4, BNE at PC = 0x00FD with operand 0x10 and Z = 0 ends with
PC = 0x010F after 4 cycles. -/
theorem c8_branches (cpu : Cpu) (b : Nat) (hb : b < 256)
    (hpc : cpu.program_counter < 65536) :
    (branch cpu (some b) false = some (cpu, 2))
    ∧ (∃ pc' : Nat,
        branch cpu (some b) true
          = some ({ cpu with program_counter := pc' },
              if cpu.program_counter >>> 8 ≠ pc' >>> 8 then 4 else 3)
        ∧ (pc' : Int) = ((cpu.program_counter : Int)
            + (if b < 128 then (b : Int) else (b : Int) - 256)) % 65536)
    ∧ cpu.instruction_bcc (some b) = branch cpu (some b) (!carry_flag cpu.processor_status)
    ∧ cpu.instruction_bcs (some b) = branch cpu (some b) (carry_flag cpu.processor_status)
    ∧ cpu.instruction_beq (some b) = branch cpu (some b) (zero_flag cpu.processor_status)
    ∧ cpu.instruction_bne (some b) = branch cpu (some b) (!zero_flag cpu.processor_status)
    ∧ cpu.instruction_bmi (some b)
        = branch cpu (some b) (negative_flag cpu.processor_status)
    ∧ cpu.instruction_bpl (some b)
        = branch cpu (some b) (!negative_flag cpu.processor_status)
    ∧ cpu.instruction_bvs (some b)
        = branch cpu (some b) (overflow_flag cpu.processor_status)
    ∧ cpu.instruction_bvc (some b)
        = branch cpu (some b) (!overflow_flag cpu.processor_status)
    ∧ (({ baseCpu with
          program_counter := 0x00FD,
          mem := fun a => if a = 0x00FD then 0xD0 else if a = 0x00FE then 0x10 else 0 } :
        Cpu).cycle).map (fun r => (r.1.program_counter, r.2)) = some (0x010F, 4) := by
  refine ⟨?_, ?_, rfl, rfl, rfl, rfl, rfl, rfl, rfl, rfl, by decide⟩
  · rfl
  · simp only [branch, twos_compliment_to_signed, Option.bind_eq_bind, Option.bind]
    by_cases hbig : b >>> 7 ≠ 0
    · have hge : 128 ≤ b := by
        rw [Nat.shiftRight_eq_div_pow] at hbig
        omega
      have hlt : ¬b < 128 := by omega
      rw [if_pos hbig, xor_255 b hb, show 255 - b + 1 = 256 - b by omega,
        Nat.mod_eq_of_lt (show 256 - b < 256 by omega)]
      by_cases h128 : 256 - b = 128
      · rw [if_pos h128]
        rw [if_neg (show ¬(0 : Int) < -128 by norm_num)]
        refine ⟨_, rfl, ?_⟩
        rw [if_neg hlt]
        have hb' : b = 128 := by omega
        subst hb'
        have ht : ((-(-128 : Int)).toNat : Nat) = 128 := rfl
        rw [ht]
        push_cast
        omega
      · rw [if_neg h128]
        have hpos : ¬(0 : Int) < -((256 - b : Nat) : Int) := by
          have h1 : (0 : Int) < ((256 - b : Nat) : Int) := by omega
          omega
        rw [if_neg hpos]
        refine ⟨_, rfl, ?_⟩
        rw [if_neg hlt]
        have ht : ((-(-((256 - b : Nat) : Int))).toNat : Nat) = 256 - b := by
          simp
        rw [ht]
        push_cast
        omega
    · have hlt : b < 128 := by
        rw [Nat.shiftRight_eq_div_pow] at hbig
        omega
      rw [if_neg hbig]
      by_cases hzero : 0 < b
      · rw [if_pos (show (0 : Int) < (b : Int) by exact_mod_cast hzero)]
        refine ⟨_, rfl, ?_⟩
        rw [if_pos hlt]
        have ht : (((b : Int)).toNat : Nat) = b := by simp
        rw [ht]
        push_cast
        omega
      · have hb0 : b = 0 := by omega
        subst hb0
        rw [if_neg (show ¬(0 : Int) < ((0 : Nat) : Int) by norm_num)]
        refine ⟨_, rfl, ?_⟩
        norm_num

/-- C8 witness: the taken/page-cross law at the post-fetch S4 state
(PC = 0x00FF, operand 0x10). -/
theorem c8_branches_witness :
    branch { baseCpu with program_counter := 0x00FF } (some 0x10) false
      = some ({ baseCpu with program_counter := 0x00FF }, 2)
    ∧ (∃ pc' : Nat,
        branch { baseCpu with program_counter := 0x00FF } (some 0x10) true
          = some ({ baseCpu with program_counter := pc' },
              if (0x00FF : Nat) >>> 8 ≠ pc' >>> 8 then 4 else 3)
        ∧ (pc' : Int) = ((0x00FF : Int) + (if (0x10 : Nat) < 128 then (0x10 : Int)
            else (0x10 : Int) - 256)) % 65536) := by
  have h := c8_branches { baseCpu with program_counter := 0x00FF } 0x10
    (by decide) (by decide)
  exact ⟨h.1, h.2.1⟩

/-- C10 witness: a CPU whose PC points at the illegal byte 0x03. -/
theorem c10_undecodable_witness :
    ({ baseCpu with mem := fun a => if a = 0 then 0x03 else 0 } : Cpu).cycle_debug
      = some ({ baseCpu with mem := fun a => if a = 0 then 0x03 else 0 }, 0, false, none) :=
  c10_undecodable _ (by decide)

/-- C9: through `cycle()`, opcode 0x96 (STX zero-page,Y) writes X to zero-page
address `(low_operand + Y) mod 256` and opcode 0xB6 (LDX zero-page,Y) loads X
from `(low_operand + Y) mod 256`; both index with Y (the decoder's
ZeropageXIndexed tag is patched to ZeropageYIndexed inside LDX/STX), wrap the
index add in 8 bits, and take 4 cycles. -/
theorem c9_zeropage_y (cpu : Cpu) (hn : cpu.nmi = false) (hirq : cpu.irq = false)
    (hx : cpu.x < 256) :
    (cpu.read cpu.program_counter = 0x96 →
      ∃ cpu', cpu.cycle = some (cpu', 4)
        ∧ cpu'.read ((cpu.read ((cpu.program_counter + 1) % 65536) + cpu.y) % 256) = cpu.x
        ∧ cpu'.program_counter = (cpu.program_counter + 2) % 65536
        ∧ cpu'.x = cpu.x ∧ cpu'.y = cpu.y
        ∧ cpu'.accumulator = cpu.accumulator
        ∧ cpu'.stack_pointer = cpu.stack_pointer
        ∧ cpu'.processor_status = cpu.processor_status)
    ∧ (cpu.read cpu.program_counter = 0xB6 →
      ∃ cpu', cpu.cycle = some (cpu', 4)
        ∧ cpu'.x = cpu.read ((cpu.read ((cpu.program_counter + 1) % 65536) + cpu.y) % 256)
        ∧ cpu'.program_counter = (cpu.program_counter + 2) % 65536
        ∧ cpu'.mem = cpu.mem) := by
  constructor
  · intro hop
    have hfetch : cpu.fetch
        = some ({ cpu with program_counter := (cpu.program_counter + 2) % 65536 },
            { opcode := .STX, addressing_mode := .ZeropageXIndexed,
              low_byte := some (cpu.read ((cpu.program_counter + 1) % 65536)),
              high_byte := none }) := by
      simp only [Cpu.fetch, hop, Option.bind_eq_bind, Option.bind]
      rw [show FullOpcode.try_new 0x96
        = some { opcode := .STX, addressing_mode := .ZeropageXIndexed } from rfl]
      rfl
    simp only [Cpu.cycle, hn, hirq, Bool.false_eq_true, if_false, false_and]
    rw [hfetch]
    simp only [Option.bind_eq_bind, Option.bind, Cpu.execute, Cpu.instruction_stx,
      zeropage_y_write, Option.map]
    refine ⟨_, rfl, ?_, rfl, rfl, rfl, rfl, rfl, rfl⟩
    rw [Cpu.read_write_eq]
    · omega
    · rfl
  · intro hop
    have hfetch : cpu.fetch
        = some ({ cpu with program_counter := (cpu.program_counter + 2) % 65536 },
            { opcode := .LDX, addressing_mode := .ZeropageXIndexed,
              low_byte := some (cpu.read ((cpu.program_counter + 1) % 65536)),
              high_byte := none }) := by
      simp only [Cpu.fetch, hop, Option.bind_eq_bind, Option.bind]
      rw [show FullOpcode.try_new 0xB6
        = some { opcode := .LDX, addressing_mode := .ZeropageXIndexed } from rfl]
      rfl
    simp only [Cpu.cycle, hn, hirq, Bool.false_eq_true, if_false, false_and]
    rw [hfetch]
    simp only [Option.bind_eq_bind, Option.bind, Cpu.execute, Cpu.instruction_ldx,
      zeropage_y_read, Cpu.modify_zero_flag, Cpu.modify_negative_flag, Option.map]
    split_ifs <;> exact ⟨_, rfl, rfl, rfl, rfl⟩

/-- A concrete state for the C9 STX scenario: opcode 0x96 at PC 0, operand
0x20, `X = 0x77`, `Y = 5`, so the write lands at 0x25. -/
def c9StxCpu : Cpu :=
  { baseCpu with
      x := 0x77, y := 0x05,
      mem := fun a => if a = 0 then 0x96 else if a = 1 then 0x20 else 0 }

/-- A concrete state for the C9 LDX scenario: opcode 0xB6 at PC 0, operand
0xFE, `Y = 5`, so the load comes from `(0xFE + 5) mod 256 = 0x03`. -/
def c9LdxCpu : Cpu :=
  { baseCpu with
      y := 0x05,
      mem := fun a =>
        if a = 0 then 0xB6 else if a = 1 then 0xFE else if a = 3 then 0x42 else 0 }

/-- C9 witness: both scenarios run through `cycle()`. -/
theorem c9_zeropage_y_witness :
    (∃ cpu', c9StxCpu.cycle = some (cpu', 4)
      ∧ cpu'.read ((c9StxCpu.read ((c9StxCpu.program_counter + 1) % 65536) + c9StxCpu.y)
            % 256) = c9StxCpu.x
      ∧ cpu'.program_counter = (c9StxCpu.program_counter + 2) % 65536
      ∧ cpu'.x = c9StxCpu.x ∧ cpu'.y = c9StxCpu.y
      ∧ cpu'.accumulator = c9StxCpu.accumulator
      ∧ cpu'.stack_pointer = c9StxCpu.stack_pointer
      ∧ cpu'.processor_status = c9StxCpu.processor_status)
    ∧ (∃ cpu', c9LdxCpu.cycle = some (cpu', 4)
      ∧ cpu'.x = c9LdxCpu.read ((c9LdxCpu.read ((c9LdxCpu.program_counter + 1) % 65536)
            + c9LdxCpu.y) % 256)
      ∧ cpu'.program_counter = (c9LdxCpu.program_counter + 2) % 65536
      ∧ cpu'.mem = c9LdxCpu.mem) :=
  ⟨(c9_zeropage_y c9StxCpu rfl rfl (by decide)).1 (by decide),
   (c9_zeropage_y c9LdxCpu rfl rfl (by decide)).2 (by decide)⟩

/-- `push` in `Cpu.mk` normal form. -/
theorem push_eq (cpu : Cpu) (b : Nat) (h : ¬cpu.stack_pointer = 0) :
    cpu.push b = some (Cpu.mk cpu.accumulator cpu.x cpu.y (cpu.stack_pointer - 1)
      cpu.program_counter cpu.processor_status
      (fun a => if a = (0x0100 ||| cpu.stack_pointer) % 65536 then b % 256 else cpu.mem a)
      cpu.irq cpu.nmi cpu.initialized) := by
  simp [Cpu.push, Cpu.write, h]

theorem read_mk_mem (m : Nat → Nat) (acc x y sp pc p : Nat) (i n ini : Bool) (a : Nat) :
    (Cpu.mk acc x y sp pc p m i n ini).read a = m (a % 65536) % 256 := rfl

theorem brk_maskable (cpu : Cpu) (hsp1 : 3 ≤ cpu.stack_pointer)
    (hsp2 : cpu.stack_pointer < 256) (hpc : cpu.program_counter < 65536)
    (hp : cpu.processor_status < 256) :
    ∃ cpu', cpu.instruction_brk .MaskableInterrupt = some (cpu', 7)
      ∧ cpu'.program_counter = 256 * cpu.read 0xFFFF + cpu.read 0xFFFE
      ∧ cpu'.stack_pointer = cpu.stack_pointer - 3
      ∧ cpu'.read (256 + cpu.stack_pointer) = cpu.program_counter / 256
      ∧ cpu'.read (255 + cpu.stack_pointer) = cpu.program_counter % 256
      ∧ cpu'.read (254 + cpu.stack_pointer) = cpu.processor_status
      ∧ cpu'.processor_status = set_interrupt_disable_flag cpu.processor_status
      ∧ cpu'.accumulator = cpu.accumulator ∧ cpu'.x = cpu.x ∧ cpu'.y = cpu.y
      ∧ cpu'.irq = cpu.irq ∧ cpu'.nmi = cpu.nmi := by
  have h1 : (cpu.stack_pointer = 0) = False := eq_false (by omega)
  have h2 : (cpu.stack_pointer - 1 = 0) = False := eq_false (by omega)
  have h3 : (cpu.stack_pointer - 1 - 1 = 0) = False := eq_false (by omega)
  have hif : (InterruptState.MaskableInterrupt = InterruptState.Inactive ∨
      InterruptState.MaskableInterrupt = InterruptState.Reset) = False := by simp
  have hA1 : (0x0100 : Nat) ||| cpu.stack_pointer = 256 + cpu.stack_pointer :=
    stack_address_eq _ hsp2
  have hA2 : (0x0100 : Nat) ||| (cpu.stack_pointer - 1) = 256 + (cpu.stack_pointer - 1) :=
    stack_address_eq _ (by omega)
  have hA3 : (0x0100 : Nat) ||| (cpu.stack_pointer - 1 - 1)
      = 256 + (cpu.stack_pointer - 1 - 1) :=
    stack_address_eq _ (by omega)
  have hga : ((65534 : Nat) % 65536
      = (256 + (cpu.stack_pointer - 1 - 1)) % 65536) = False := eq_false (by omega)
  have hgb : ((65534 : Nat) % 65536
      = (256 + (cpu.stack_pointer - 1)) % 65536) = False := eq_false (by omega)
  have hgc : ((65534 : Nat) % 65536
      = (256 + cpu.stack_pointer) % 65536) = False := eq_false (by omega)
  have hgd : ((65534 + 1 : Nat) % 65536
      = (256 + (cpu.stack_pointer - 1 - 1)) % 65536) = False := eq_false (by omega)
  have hge : ((65534 + 1 : Nat) % 65536
      = (256 + (cpu.stack_pointer - 1)) % 65536) = False := eq_false (by omega)
  have hgf : ((65534 + 1 : Nat) % 65536
      = (256 + cpu.stack_pointer) % 65536) = False := eq_false (by omega)
  have hgg : ((256 + cpu.stack_pointer) % 65536
      = (256 + (cpu.stack_pointer - 1 - 1)) % 65536) = False := eq_false (by omega)
  have hgh : ((256 + cpu.stack_pointer) % 65536
      = (256 + (cpu.stack_pointer - 1)) % 65536) = False := eq_false (by omega)
  have hgi : ((256 + cpu.stack_pointer) % 65536
      = (256 + cpu.stack_pointer) % 65536) = True := eq_true rfl
  have hgj : ((255 + cpu.stack_pointer) % 65536
      = (256 + (cpu.stack_pointer - 1 - 1)) % 65536) = False := eq_false (by omega)
  have hgk : ((255 + cpu.stack_pointer) % 65536
      = (256 + (cpu.stack_pointer - 1)) % 65536) = True := eq_true (by omega)
  have hgl : ((254 + cpu.stack_pointer) % 65536
      = (256 + (cpu.stack_pointer - 1 - 1)) % 65536) = True := eq_true (by omega)
  simp only [Cpu.instruction_brk, unpack_bytes, push_eq, h1, h2, h3, hif,
    Option.bind_eq_bind, Option.bind, if_false, ite_false,
    IRQ_BRK_VECTOR_ADDRESS, not_false_eq_true, hA1, hA2, hA3]
  refine ⟨_, rfl, ?_, ?_, ?_, ?_, ?_, ?_, ?_, ?_, ?_, ?_, ?_⟩
  · simp only [read_mk_mem, hga, hgb, hgc, hgd, hge, hgf, if_false, ite_false]
    rw [pack_bytes_eq _ _ (by omega)]
    rfl
  · show cpu.stack_pointer - 1 - 1 - 1 = cpu.stack_pointer - 3
    omega
  · simp only [read_mk_mem, hgg, hgh, hgi, if_false, ite_false, if_true, ite_true]
    rw [Nat.shiftRight_eq_div_pow, show (255 : Nat) = 2 ^ 8 - 1 from rfl,
      Nat.and_pow_two_sub_one_eq_mod]
    have hq : cpu.program_counter / 2 ^ 8 < 256 := by omega
    omega
  · simp only [read_mk_mem, hgj, hgk, if_false, ite_false, if_true, ite_true]
    rw [show (255 : Nat) = 2 ^ 8 - 1 from rfl, Nat.and_pow_two_sub_one_eq_mod]
    omega
  · simp only [read_mk_mem, hgl, if_true, ite_true]
    omega
  · rfl
  · rfl
  · rfl
  · rfl
  · rfl
  · rfl



theorem brk_nmi (cpu : Cpu) (hsp1 : 3 ≤ cpu.stack_pointer)
    (hsp2 : cpu.stack_pointer < 256) (hpc : cpu.program_counter < 65536)
    (hp : cpu.processor_status < 256) :
    ∃ cpu', cpu.instruction_brk .NonMaskableInterrupt = some (cpu', 7)
      ∧ cpu'.program_counter = 256 * cpu.read 0xFFFB + cpu.read 0xFFFA
      ∧ cpu'.stack_pointer = cpu.stack_pointer - 3
      ∧ cpu'.read (256 + cpu.stack_pointer) = cpu.program_counter / 256
      ∧ cpu'.read (255 + cpu.stack_pointer) = cpu.program_counter % 256
      ∧ cpu'.read (254 + cpu.stack_pointer) = cpu.processor_status
      ∧ cpu'.processor_status = set_interrupt_disable_flag cpu.processor_status
      ∧ cpu'.accumulator = cpu.accumulator ∧ cpu'.x = cpu.x ∧ cpu'.y = cpu.y
      ∧ cpu'.irq = cpu.irq ∧ cpu'.nmi = cpu.nmi := by
  have h1 : (cpu.stack_pointer = 0) = False := eq_false (by omega)
  have h2 : (cpu.stack_pointer - 1 = 0) = False := eq_false (by omega)
  have h3 : (cpu.stack_pointer - 1 - 1 = 0) = False := eq_false (by omega)
  have hif : (InterruptState.NonMaskableInterrupt = InterruptState.Inactive ∨
      InterruptState.NonMaskableInterrupt = InterruptState.Reset) = False := by simp
  have hA1 : (0x0100 : Nat) ||| cpu.stack_pointer = 256 + cpu.stack_pointer :=
    stack_address_eq _ hsp2
  have hA2 : (0x0100 : Nat) ||| (cpu.stack_pointer - 1) = 256 + (cpu.stack_pointer - 1) :=
    stack_address_eq _ (by omega)
  have hA3 : (0x0100 : Nat) ||| (cpu.stack_pointer - 1 - 1)
      = 256 + (cpu.stack_pointer - 1 - 1) :=
    stack_address_eq _ (by omega)
  have hga : ((65530 : Nat) % 65536
      = (256 + (cpu.stack_pointer - 1 - 1)) % 65536) = False := eq_false (by omega)
  have hgb : ((65530 : Nat) % 65536
      = (256 + (cpu.stack_pointer - 1)) % 65536) = False := eq_false (by omega)
  have hgc : ((65530 : Nat) % 65536
      = (256 + cpu.stack_pointer) % 65536) = False := eq_false (by omega)
  have hgd : ((65530 + 1 : Nat) % 65536
      = (256 + (cpu.stack_pointer - 1 - 1)) % 65536) = False := eq_false (by omega)
  have hge : ((65530 + 1 : Nat) % 65536
      = (256 + (cpu.stack_pointer - 1)) % 65536) = False := eq_false (by omega)
  have hgf : ((65530 + 1 : Nat) % 65536
      = (256 + cpu.stack_pointer) % 65536) = False := eq_false (by omega)
  have hgg : ((256 + cpu.stack_pointer) % 65536
      = (256 + (cpu.stack_pointer - 1 - 1)) % 65536) = False := eq_false (by omega)
  have hgh : ((256 + cpu.stack_pointer) % 65536
      = (256 + (cpu.stack_pointer - 1)) % 65536) = False := eq_false (by omega)
  have hgi : ((256 + cpu.stack_pointer) % 65536
      = (256 + cpu.stack_pointer) % 65536) = True := eq_true rfl
  have hgj : ((255 + cpu.stack_pointer) % 65536
      = (256 + (cpu.stack_pointer - 1 - 1)) % 65536) = False := eq_false (by omega)
  have hgk : ((255 + cpu.stack_pointer) % 65536
      = (256 + (cpu.stack_pointer - 1)) % 65536) = True := eq_true (by omega)
  have hgl : ((254 + cpu.stack_pointer) % 65536
      = (256 + (cpu.stack_pointer - 1 - 1)) % 65536) = True := eq_true (by omega)
  simp only [Cpu.instruction_brk, unpack_bytes, push_eq, h1, h2, h3, hif,
    Option.bind_eq_bind, Option.bind, if_false, ite_false,
    NMI_VECTOR_ADDRESS, not_false_eq_true, hA1, hA2, hA3]
  refine ⟨_, rfl, ?_, ?_, ?_, ?_, ?_, ?_, ?_, ?_, ?_, ?_, ?_⟩
  · simp only [read_mk_mem, hga, hgb, hgc, hgd, hge, hgf, if_false, ite_false]
    rw [pack_bytes_eq _ _ (by omega)]
    rfl
  · show cpu.stack_pointer - 1 - 1 - 1 = cpu.stack_pointer - 3
    omega
  · simp only [read_mk_mem, hgg, hgh, hgi, if_false, ite_false, if_true, ite_true]
    rw [Nat.shiftRight_eq_div_pow, show (255 : Nat) = 2 ^ 8 - 1 from rfl,
      Nat.and_pow_two_sub_one_eq_mod]
    have hq : cpu.program_counter / 2 ^ 8 < 256 := by omega
    omega
  · simp only [read_mk_mem, hgj, hgk, if_false, ite_false, if_true, ite_true]
    rw [show (255 : Nat) = 2 ^ 8 - 1 from rfl, Nat.and_pow_two_sub_one_eq_mod]
    omega
  · simp only [read_mk_mem, hgl, if_true, ite_true]
    omega
  · rfl
  · rfl
  · rfl
  · rfl
  · rfl
  · rfl

/-- C6: when an NMI is pending, `cycle()` services it first — even with I
set — by pushing PC high, PC low, then P with B left as-is, setting I, loading
PC little-endian from 0xFFFA/0xFFFB, clearing the NMI line and returning 7
without fetching an instruction; when no NMI is pending, the IRQ line is
asserted and I is clear, the same procedure runs with vector 0xFFFE/0xFFFF and
the IRQ line is acknowledged to false. -/
theorem c6_interrupt_dispatch (cpu : Cpu) (hsp1 : 3 ≤ cpu.stack_pointer)
    (hsp2 : cpu.stack_pointer < 256) (hpc : cpu.program_counter < 65536)
    (hp : cpu.processor_status < 256) :
    (cpu.nmi = true →
      ∃ cpu', cpu.cycle = some (cpu', 7)
        ∧ cpu'.program_counter = 256 * cpu.read 0xFFFB + cpu.read 0xFFFA
        ∧ cpu'.nmi = false
        ∧ cpu'.stack_pointer = cpu.stack_pointer - 3
        ∧ cpu'.read (256 + cpu.stack_pointer) = cpu.program_counter / 256
        ∧ cpu'.read (255 + cpu.stack_pointer) = cpu.program_counter % 256
        ∧ cpu'.read (254 + cpu.stack_pointer) = cpu.processor_status
        ∧ interrupt_disable_flag cpu'.processor_status = true
        ∧ break_flag cpu'.processor_status = break_flag cpu.processor_status
        ∧ cpu'.accumulator = cpu.accumulator ∧ cpu'.x = cpu.x ∧ cpu'.y = cpu.y
        ∧ cpu'.irq = cpu.irq)
    ∧ (cpu.nmi = false → cpu.irq = true → cpu.processor_status &&& 0x04 = 0 →
      ∃ cpu', cpu.cycle = some (cpu', 7)
        ∧ cpu'.program_counter = 256 * cpu.read 0xFFFF + cpu.read 0xFFFE
        ∧ cpu'.irq = false
        ∧ cpu'.stack_pointer = cpu.stack_pointer - 3
        ∧ cpu'.read (256 + cpu.stack_pointer) = cpu.program_counter / 256
        ∧ cpu'.read (255 + cpu.stack_pointer) = cpu.program_counter % 256
        ∧ cpu'.read (254 + cpu.stack_pointer) = cpu.processor_status
        ∧ interrupt_disable_flag cpu'.processor_status = true
        ∧ break_flag cpu'.processor_status = break_flag cpu.processor_status
        ∧ cpu'.accumulator = cpu.accumulator ∧ cpu'.x = cpu.x ∧ cpu'.y = cpu.y
        ∧ cpu'.nmi = false) := by
  constructor
  · intro hnmi
    have hcy : cpu.cycle = ({ cpu with nmi := false }).instruction_brk .NonMaskableInterrupt := by
      simp [Cpu.cycle, hnmi]
    obtain ⟨cpu', heq, hv, hsp, hr1, hr2, hr3, hps, hacc, hx, hy, hirq, hnm⟩ :=
      brk_nmi { cpu with nmi := false } hsp1 hsp2 hpc hp
    refine ⟨cpu', by rw [hcy]; exact heq, hv, hnm, hsp, hr1, hr2, hr3, ?_, ?_, hacc, hx, hy, hirq⟩
    · rw [hps]
      simp [interrupt_disable_flag, set_interrupt_disable_flag, get_flag_set_flag]
    · rw [hps]
      simp [break_flag, set_interrupt_disable_flag, get_flag_set_flag]
  · intro hnmi hirq hdis
    have hcy : cpu.cycle = ({ cpu with irq := false }).instruction_brk .MaskableInterrupt := by
      simp [Cpu.cycle, hnmi, hirq, hdis]
    obtain ⟨cpu', heq, hv, hsp, hr1, hr2, hr3, hps, hacc, hx, hy, hiq, hnm⟩ :=
      brk_maskable { cpu with irq := false } hsp1 hsp2 hpc hp
    refine ⟨cpu', by rw [hcy]; exact heq, hv, hiq, hsp, hr1, hr2, hr3, ?_, ?_, hacc, hx, hy, ?_⟩
    · rw [hps]
      simp [interrupt_disable_flag, set_interrupt_disable_flag, get_flag_set_flag]
    · rw [hps]
      simp [break_flag, set_interrupt_disable_flag, get_flag_set_flag]
    · rw [hnm]
      exact hnmi


/-- A concrete NMI-pending state for C6. -/
def c6NmiCpu : Cpu :=
  { baseCpu with
      stack_pointer := 0xFD, program_counter := 0x1234, nmi := true, irq := true,
      processor_status := 0x04,
      mem := fun a => if a = 0xFFFB then 0x80 else 0 }

/-- Scenario S5 for C6: IRQ asserted, I clear, vector 0xC000. -/
def c6IrqCpu : Cpu :=
  { baseCpu with
      stack_pointer := 0xFD, program_counter := 0x1234, irq := true,
      mem := fun a => if a = 0xFFFF then 0xC0 else 0 }

/-- C6 witness: an NMI taken even though I is set, and scenario S5's IRQ
dispatch with I clear. -/
theorem c6_interrupt_dispatch_witness :
    (∃ cpu', c6NmiCpu.cycle = some (cpu', 7)
      ∧ cpu'.program_counter = 256 * c6NmiCpu.read 0xFFFB + c6NmiCpu.read 0xFFFA
      ∧ cpu'.nmi = false
      ∧ cpu'.stack_pointer = c6NmiCpu.stack_pointer - 3
      ∧ cpu'.read (256 + c6NmiCpu.stack_pointer) = c6NmiCpu.program_counter / 256
      ∧ cpu'.read (255 + c6NmiCpu.stack_pointer) = c6NmiCpu.program_counter % 256
      ∧ cpu'.read (254 + c6NmiCpu.stack_pointer) = c6NmiCpu.processor_status
      ∧ interrupt_disable_flag cpu'.processor_status = true
      ∧ break_flag cpu'.processor_status = break_flag c6NmiCpu.processor_status
      ∧ cpu'.accumulator = c6NmiCpu.accumulator ∧ cpu'.x = c6NmiCpu.x
      ∧ cpu'.y = c6NmiCpu.y
      ∧ cpu'.irq = c6NmiCpu.irq)
    ∧ (∃ cpu', c6IrqCpu.cycle = some (cpu', 7)
      ∧ cpu'.program_counter = 256 * c6IrqCpu.read 0xFFFF + c6IrqCpu.read 0xFFFE
      ∧ cpu'.irq = false
      ∧ cpu'.stack_pointer = c6IrqCpu.stack_pointer - 3
      ∧ cpu'.read (256 + c6IrqCpu.stack_pointer) = c6IrqCpu.program_counter / 256
      ∧ cpu'.read (255 + c6IrqCpu.stack_pointer) = c6IrqCpu.program_counter % 256
      ∧ cpu'.read (254 + c6IrqCpu.stack_pointer) = c6IrqCpu.processor_status
      ∧ interrupt_disable_flag cpu'.processor_status = true
      ∧ break_flag cpu'.processor_status = break_flag c6IrqCpu.processor_status
      ∧ cpu'.accumulator = c6IrqCpu.accumulator ∧ cpu'.x = c6IrqCpu.x
      ∧ cpu'.y = c6IrqCpu.y
      ∧ cpu'.nmi = false) :=
  ⟨(c6_interrupt_dispatch c6NmiCpu (by decide) (by decide) (by decide) (by decide)).1 rfl,
   (c6_interrupt_dispatch c6IrqCpu (by decide) (by decide) (by decide) (by decide)).2
     rfl rfl rfl⟩

end Nes6502
